import Mathlib

set_option maxHeartbeats 1000000

/-!
Shallow embedding of the IBM_Disaster_Recovery backup dashboard server
(`server.js`, given as src/unnamed/part_000) together with the relevant part
of the browser client (src/public/script.js).

Modelling conventions:
* A socket.io progress event `{message, percentage}` is an `Event`.  In the
  source, fixed-phase emissions pass a JavaScript number while the per-chunk
  emissions pass the result of `Number.prototype.toFixed(2)`, which is a
  string.  `PVal` keeps that distinction: `PVal.num q` is the number `q`,
  `PVal.str q` is the decimal string produced by `toFixed(2)` whose denoted
  numeric value is `q` (the rendering itself carries no extra information,
  since `toFixed(2)` output determines and is determined by the rounded
  rational `q`).
* Every `log(message, notify)` call appends a `LogEntry`; the timestamp prefix
  that `log` prepends, and the e-mail transport behind `notify`, are elided
  (the notifier is an opaque collaborator).
* Each Express handler / the reusable `performBackup` is a pure function from
  an environment describing its inputs and the injected outcome of every
  fallible external step (`Option String`: `none` = success, `some e` =
  rejection with error message `e`) to the trace it produces: emitted events,
  appended log entries, the HTTP response, whether the local temp file exists
  afterwards.
* JavaScript numbers are modelled as `ℚ`.  Division by zero (which in JS
  yields NaN/Infinity) is outside the model; theorems about chunk events
  carry the stream-reality hypotheses `chunks.sum ≤ fileSize` and
  `0 < fileSize ∨ chunks = []` (a byte chunk only fires when the file has
  bytes, and cumulative bytes never exceed the total).
-/

/-- A JavaScript value sent as the `percentage` field of a progress event:
either a number or the decimal string produced by `toFixed(2)`, identified
with the rational it denotes. -/
inductive PVal where
  | num (q : ℚ)
  | str (q : ℚ)
deriving DecidableEq

/-- The numeric value denoted by a `percentage` field. -/
def PVal.val : PVal → ℚ
  | .num q => q
  | .str q => q

/-- Is this percentage a JavaScript number (as opposed to a string)? -/
def PVal.isNum : PVal → Bool
  | .num _ => true
  | .str _ => false

/-- One socket.io `progress` event, `{message, percentage}`. -/
structure Event where
  message : String
  percentage : PVal
deriving DecidableEq

/-- One appended audit-log line: the message passed to `log` and the
`notify` escalation flag (default `false` in the source). -/
structure LogEntry where
  message : String
  notify : Bool
deriving DecidableEq

/-- The outcome a route handler produces for the HTTP caller: a redirect, a
status with a body — or no answer at all (`crash`), when an uncaught
exception kills the process before any response is sent. -/
inductive Response where
  | redirect (target : String)
  | status (code : ℕ) (body : String)
  | crash
deriving DecidableEq

/-- `Number.prototype.toFixed(2)` on the value level: round to two decimal
places, ties upward (ECMA-262 picks the larger candidate), so the produced
string denotes exactly this rational. -/
def toFixed2 (q : ℚ) : ℚ := ((⌊q * 100 + 1 / 2⌋ : ℤ) : ℚ) / 100

/-- Cumulative byte counts seen by a stream `data` handler that adds each
chunk length to an accumulator: `uploadedBytes += chunk.length`. -/
def cumSums (acc : ℕ) : List ℕ → List ℕ
  | [] => []
  | c :: cs => (acc + c) :: cumSums (acc + c) cs

/-- The percentage computed for one chunk:
`((bytes / total) * scale + offset).toFixed(2)`, value level. -/
def chunkPerc (scale offset : ℚ) (total bytes : ℕ) : ℚ :=
  toFixed2 ((bytes : ℚ) / (total : ℚ) * scale + offset)

/-- `if (socket) socket.emit('progress', e)` — the events actually emitted. -/
def emitTo (socket : Bool) (e : Event) : List Event :=
  if socket then [e] else []

/-- The per-chunk progress events fired by a stream `data` handler during a
transfer: one event per chunk, percentage a `toFixed(2)` string. -/
def chunkEvents (socket : Bool) (msg : String) (scale offset : ℚ)
    (total : ℕ) (chunks : List ℕ) : List Event :=
  if socket then
    (cumSums 0 chunks).map fun b => ⟨msg, PVal.str (chunkPerc scale offset total b)⟩
  else []

/-- One digit character, as produced by JavaScript number formatting. -/
def dChar (n : ℕ) : Char := Nat.digitChar (n % 10)

/-- Two-digit zero-padded decimal rendering (`Date` ISO fields). -/
def pad2 (n : ℕ) : List Char := [dChar (n / 10), dChar n]

/-- Three-digit zero-padded decimal rendering (ISO milliseconds). -/
def pad3 (n : ℕ) : List Char := [dChar (n / 100), dChar (n / 10), dChar n]

/-- Four-digit zero-padded decimal rendering (ISO year). -/
def pad4 (n : ℕ) : List Char := [dChar (n / 1000), dChar (n / 100), dChar (n / 10), dChar n]

/-- A JavaScript `Date` instant, given by the UTC calendar components that
`toISOString` renders.  (The conversion from epoch milliseconds to these
components is the JS runtime's; the components carry exactly the same
information, millisecond resolution.) -/
structure JsDate where
  year : ℕ
  month : ℕ
  day : ℕ
  hour : ℕ
  minute : ℕ
  second : ℕ
  ms : ℕ
deriving DecidableEq

/-- Component bounds under which the fixed-width ISO rendering is faithful.
(Real dates satisfy much tighter bounds.) -/
def JsDate.Valid (d : JsDate) : Prop :=
  d.year < 10000 ∧ d.month < 100 ∧ d.day < 100 ∧ d.hour < 100 ∧
    d.minute < 100 ∧ d.second < 100 ∧ d.ms < 1000

instance (d : JsDate) : Decidable d.Valid := by
  rw [JsDate.Valid]; infer_instance

/-- The character list of `Date.prototype.toISOString()`:
`YYYY-MM-DDTHH:mm:ss.sssZ`. -/
def JsDate.isoChars (d : JsDate) : List Char :=
  pad4 d.year ++ '-' :: pad2 d.month ++ '-' :: pad2 d.day ++
    'T' :: pad2 d.hour ++ ':' :: pad2 d.minute ++ ':' :: pad2 d.second ++
      '.' :: pad3 d.ms ++ ['Z']

/-- `new Date().toISOString()`. -/
def JsDate.toISOString (d : JsDate) : String := String.mk d.isoChars

/-- `s.replace(/:/g, '-')`. -/
def replaceColons (s : String) : String :=
  String.mk (s.toList.map fun c => if c = ':' then '-' else c)

/-- The backup artifact identifier built by `performBackup`:
`backup-${new Date().toISOString().replace(/:/g, '-')}.sql`. -/
def backupFilename (d : JsDate) : String :=
  "backup-" ++ replaceColons d.toISOString ++ ".sql"

/-- `path.join(__dirname, 'temp', filename)` with `__dirname` elided. -/
def tempPath (filename : String) : String := "temp/" ++ filename

/-- Inputs of one `performBackup(socket)` call, together with the injected
outcome of each fallible external step (`none` = success, `some e` =
failure with error message `e`). -/
structure BackupEnv where
  /-- the `new Date()` taken at the start of the run -/
  date : JsDate
  /-- whether a socket argument was passed (`io` for manual, `null` for auto) -/
  socket : Bool
  /-- outcome of `execPromise(pg_dump ...)` -/
  dumpErr : Option String
  /-- whether a failing `pg_dump -f` left a (partial) dump file behind -/
  dumpPartialFile : Bool
  /-- `fs.statSync(filepath).size` of the successful dump -/
  fileSize : ℕ
  /-- chunk sizes delivered by the read stream before the upload settles -/
  chunks : List ℕ
  /-- outcome of `cos.upload(...).promise()` -/
  uploadErr : Option String
  /-- outcome of `fs.unlinkSync(filepath)` -/
  unlinkErr : Option String

/-- The observable outcome of one `performBackup` call: the progress events
emitted, the audit-log entries appended, the returned boolean, and whether
the local temp file exists after the call. -/
structure RunResult where
  events : List Event
  logs : List LogEntry
  success : Bool
  tempExists : Bool
deriving DecidableEq

/-- Shallow embedding of `performBackup` (src/unnamed/part_000 lines
101-141): dump, upload with per-chunk progress, emit 100, unlink — all in
one `try`; the `catch` logs escalated, emits −1 and returns `false`, and
performs no cleanup of its own. -/
def performBackup (env : BackupEnv) : RunResult :=
  let filename := backupFilename env.date
  let filepath := tempPath filename
  let ev0 := emitTo env.socket ⟨"Starting backup...", PVal.num 0⟩
  let l0 : List LogEntry := [⟨"Starting backup process: " ++ filename, false⟩]
  match env.dumpErr with
  | some e =>
    { events := ev0 ++ emitTo env.socket ⟨"Backup failed", PVal.num (-1)⟩
      logs := l0 ++ [⟨"Backup failed: " ++ e, true⟩]
      success := false
      tempExists := env.dumpPartialFile }
  | none =>
    let l1 := l0 ++
      [⟨"Backup file created: " ++ filepath ++ ", uploading to IBM COS...", false⟩]
    let ev1 := ev0 ++ emitTo env.socket ⟨"Uploading backup...", PVal.num 10⟩
    let evChunks := chunkEvents env.socket "Uploading..." 90 10 env.fileSize env.chunks
    match env.uploadErr with
    | some e =>
      { events := ev1 ++ evChunks ++ emitTo env.socket ⟨"Backup failed", PVal.num (-1)⟩
        logs := l1 ++ [⟨"Backup failed: " ++ e, true⟩]
        success := false
        tempExists := true }
    | none =>
      let l2 := l1 ++ [⟨"Backup uploaded: " ++ filename, false⟩]
      let ev2 := ev1 ++ evChunks ++ emitTo env.socket ⟨"Backup completed", PVal.num 100⟩
      match env.unlinkErr with
      | some e =>
        { events := ev2 ++ emitTo env.socket ⟨"Backup failed", PVal.num (-1)⟩
          logs := l2 ++ [⟨"Backup failed: " ++ e, true⟩]
          success := false
          tempExists := true }
      | none =>
        { events := ev2
          logs := l2 ++ [⟨"Temporary file deleted: " ++ filepath, false⟩]
          success := true
          tempExists := false }

/-- The outcome of one Express route handler invocation. -/
structure RouteResult where
  events : List Event
  logs : List LogEntry
  response : Response
  tempExists : Bool
deriving DecidableEq

/-- `POST /backup` (lines 144-147): `await performBackup(io); res.redirect('/')`
— the response does not depend on the run's outcome. -/
def backupRoute (env : BackupEnv) : RouteResult :=
  let r := performBackup { env with socket := true }
  { events := r.events, logs := r.logs
    response := Response.redirect "/", tempExists := r.tempExists }

/-- The body of the `cron.schedule` callback (lines 150-157): a wrapper log
line, `performBackup(null)`, and an unconditional completion log line. -/
def scheduledBackup (env : BackupEnv) : RunResult :=
  let r := performBackup { env with socket := false }
  { r with logs := ⟨"Running scheduled auto-backup...", false⟩ :: r.logs ++
      [⟨"Auto-backup completed", false⟩] }

/-- Inputs and injected step outcomes of one `POST /restore/:filename`
request (lines 160-207). -/
structure RestoreEnv where
  filename : String
  /-- outcome of `cos.headObject(...)` -/
  headErr : Option String
  /-- `metadata.ContentLength` -/
  fileSize : ℕ
  /-- chunk sizes delivered by the object stream before the transfer settles -/
  chunks : List ℕ
  /-- an `error` event raised by the remote `objectStream`: the code attaches
  no `error` listener to it and `pipe` does not forward source errors, so the
  event is thrown uncaught and kills the process -/
  streamErr : Option String
  /-- an `error` event raised by the local `fileStream`: it rejects the
  awaited promise and reaches the route's `catch` -/
  writeErr : Option String
  /-- outcome of `execPromise(psql ...)` -/
  psqlErr : Option String
  /-- outcome of `fs.unlinkSync(filepath)` -/
  unlinkErr : Option String

/-- Shallow embedding of `POST /restore/:filename`: head, download with
per-chunk progress into `[0,80]`, 80, psql, escalated success log, 100,
unlink, redirect; the `catch` logs escalated, emits −1 and answers 500 with
no cleanup.  The temp file is created by `fs.createWriteStream` once the
head call has succeeded.  Only a local write-stream error reaches the
`catch`: the awaited promise listens on `fileStream` alone, the remote
`objectStream` has no `error` listener and `pipe` does not forward its
errors, so a remote storage error mid-download is thrown uncaught and kills
the process after the chunk events — no further event, log or response. -/
def restoreRoute (env : RestoreEnv) : RouteResult :=
  let filepath := tempPath env.filename
  let ev0 := [Event.mk "Starting restore..." (PVal.num 0)]
  let l0 : List LogEntry := [⟨"Starting restore process: " ++ env.filename, false⟩]
  match env.headErr with
  | some e =>
    { events := ev0 ++ [⟨"Restore failed", PVal.num (-1)⟩]
      logs := l0 ++ [⟨"Restore failed: " ++ e, true⟩]
      response := Response.status 500 "Restore failed"
      tempExists := false }
  | none =>
    let evChunks := chunkEvents true "Downloading..." 80 0 env.fileSize env.chunks
    match env.streamErr with
    | some _ =>
      { events := ev0 ++ evChunks
        logs := l0
        response := Response.crash
        tempExists := true }
    | none =>
    match env.writeErr with
    | some e =>
      { events := ev0 ++ evChunks ++ [⟨"Restore failed", PVal.num (-1)⟩]
        logs := l0 ++ [⟨"Restore failed: " ++ e, true⟩]
        response := Response.status 500 "Restore failed"
        tempExists := true }
    | none =>
      let l1 := l0 ++
        [⟨"Backup file downloaded: " ++ env.filename ++ ", restoring database...", false⟩]
      let ev1 := ev0 ++ evChunks ++ [⟨"Restoring database...", PVal.num 80⟩]
      match env.psqlErr with
      | some e =>
        { events := ev1 ++ [⟨"Restore failed", PVal.num (-1)⟩]
          logs := l1 ++ [⟨"Restore failed: " ++ e, true⟩]
          response := Response.status 500 "Restore failed"
          tempExists := true }
      | none =>
        let l2 := l1 ++ [⟨"Database restored successfully from: " ++ env.filename, true⟩]
        let ev2 := ev1 ++ [⟨"Restore completed", PVal.num 100⟩]
        match env.unlinkErr with
        | some e =>
          { events := ev2 ++ [⟨"Restore failed", PVal.num (-1)⟩]
            logs := l2 ++ [⟨"Restore failed: " ++ e, true⟩]
            response := Response.status 500 "Restore failed"
            tempExists := true }
        | none =>
          { events := ev2
            logs := l2 ++ [⟨"Temporary file deleted: " ++ filepath, false⟩]
            response := Response.redirect "/"
            tempExists := false }

/-- Inputs and injected step outcomes of one `POST /disaster-recovery/:filename`
request (lines 239-294). -/
structure DREnv where
  filename : String
  /-- `Date.now()` used for the temporary database name -/
  nowMs : ℕ
  /-- outcome of `execPromise(createdb ...)` -/
  createdbErr : Option String
  /-- outcome of `cos.headObject(...)` -/
  headErr : Option String
  /-- `metadata.ContentLength` -/
  fileSize : ℕ
  /-- chunk sizes delivered by the object stream before the transfer settles -/
  chunks : List ℕ
  /-- an `error` event raised by the remote `objectStream`: no listener is
  attached and `pipe` does not forward it, so it is thrown uncaught and
  kills the process -/
  streamErr : Option String
  /-- an `error` event raised by the local `fileStream`: it rejects the
  awaited promise and reaches the route's `catch` -/
  writeErr : Option String
  /-- outcome of `execPromise(psql ... -d tempDbName ...)` -/
  psqlErr : Option String
  /-- outcome of `fs.unlinkSync(filepath)` -/
  unlinkErr : Option String

/-- Shallow embedding of `POST /disaster-recovery/:filename`: createdb, 10,
head, download with per-chunk progress into `[10,80]`, 80, psql into the
temporary database, escalated success log, 100, unlink, redirect; the
`catch` logs escalated, emits −1 and answers 500 with no cleanup.  As in
the restore route, only a local write-stream error reaches the `catch`; a
remote storage error on the download stream is thrown uncaught and kills
the process after the chunk events. -/
def drRoute (env : DREnv) : RouteResult :=
  let tempDbName := "recovery_" ++ toString env.nowMs
  let filepath := tempPath env.filename
  let ev0 := [Event.mk "Starting disaster recovery..." (PVal.num 0)]
  let l0 : List LogEntry :=
    [⟨"Starting disaster recovery with temporary database: " ++ tempDbName, false⟩]
  match env.createdbErr with
  | some e =>
    { events := ev0 ++ [⟨"Disaster recovery failed", PVal.num (-1)⟩]
      logs := l0 ++ [⟨"Disaster recovery failed: " ++ e, true⟩]
      response := Response.status 500 "Disaster recovery failed"
      tempExists := false }
  | none =>
    let l1 := l0 ++ [⟨"Temporary database created: " ++ tempDbName, false⟩]
    let ev1 := ev0 ++ [⟨"Temporary database created...", PVal.num 10⟩]
    match env.headErr with
    | some e =>
      { events := ev1 ++ [⟨"Disaster recovery failed", PVal.num (-1)⟩]
        logs := l1 ++ [⟨"Disaster recovery failed: " ++ e, true⟩]
        response := Response.status 500 "Disaster recovery failed"
        tempExists := false }
    | none =>
      let evChunks := chunkEvents true "Downloading backup..." 70 10 env.fileSize env.chunks
      match env.streamErr with
      | some _ =>
        { events := ev1 ++ evChunks
          logs := l1
          response := Response.crash
          tempExists := true }
      | none =>
      match env.writeErr with
      | some e =>
        { events := ev1 ++ evChunks ++ [⟨"Disaster recovery failed", PVal.num (-1)⟩]
          logs := l1 ++ [⟨"Disaster recovery failed: " ++ e, true⟩]
          response := Response.status 500 "Disaster recovery failed"
          tempExists := true }
      | none =>
        let l2 := l1 ++ [⟨"Backup downloaded: " ++ env.filename, false⟩]
        let ev2 := ev1 ++ evChunks ++ [⟨"Restoring to temporary database...", PVal.num 80⟩]
        match env.psqlErr with
        | some e =>
          { events := ev2 ++ [⟨"Disaster recovery failed", PVal.num (-1)⟩]
            logs := l2 ++ [⟨"Disaster recovery failed: " ++ e, true⟩]
            response := Response.status 500 "Disaster recovery failed"
            tempExists := true }
        | none =>
          let l3 := l2 ++ [⟨"Temporary database restored: " ++ tempDbName, true⟩]
          let ev3 := ev2 ++ [⟨"Disaster recovery completed", PVal.num 100⟩]
          match env.unlinkErr with
          | some e =>
            { events := ev3 ++ [⟨"Disaster recovery failed", PVal.num (-1)⟩]
              logs := l3 ++ [⟨"Disaster recovery failed: " ++ e, true⟩]
              response := Response.status 500 "Disaster recovery failed"
              tempExists := true }
          | none =>
            { events := ev3
              logs := l3 ++ [⟨"Temporary file deleted: " ++ filepath, false⟩]
              response := Response.redirect "/"
              tempExists := false }

/-- Inputs and injected step outcome of one `POST /delete/:filename` request
(lines 210-221). -/
structure DeleteEnv where
  filename : String
  /-- outcome of `cos.deleteObject(...)` -/
  deleteErr : Option String

/-- Shallow embedding of `POST /delete/:filename`: delete the object,
escalated success log, redirect; on failure escalated log and 500.  No
progress events and no temp file are involved. -/
def deleteRoute (env : DeleteEnv) : RouteResult :=
  let l0 : List LogEntry := [⟨"Deleting backup: " ++ env.filename, false⟩]
  match env.deleteErr with
  | some e =>
    { events := []
      logs := l0 ++ [⟨"Delete failed: " ++ e, true⟩]
      response := Response.status 500 "Delete failed"
      tempExists := false }
  | none =>
    { events := []
      logs := l0 ++ [⟨"Backup deleted successfully: " ++ env.filename, true⟩]
      response := Response.redirect "/"
      tempExists := false }

/-- The dashboard's log view (line 90): given the audit-log file split on
newlines, `filter(Boolean).reverse().slice(0, 50)` — drop empty lines,
newest first, at most 50. -/
def dashboardLogs (fileLines : List String) : List String :=
  ((fileLines.filter fun s => s ≠ "").reverse).take 50

/-- Whether the startup code registers a recurring backup trigger
(lines 150-157): exactly when `AUTO_BACKUP_SCHEDULE` is set. -/
def autoBackupRegistered (schedule : Option String) : Bool :=
  schedule.isSome

/-- A terminal progress event: percentage is the number 100 or the number −1.
This mirrors the client (src/public/script.js), which tests
`data.percentage === 100 || data.percentage === -1` with strict equality,
so only numeric payloads count. -/
def Event.isTerminal (e : Event) : Bool :=
  decide (e.percentage = PVal.num 100 ∨ e.percentage = PVal.num (-1))

/-- The spec's progress-sequence invariant for one operation run: exactly one
terminal event is emitted, it comes last, and the percentages before it are
non-decreasing. -/
def ProgressOK (es : List Event) : Prop :=
  (es.filter Event.isTerminal).length = 1 ∧
    es.getLast?.map Event.isTerminal = some true ∧
      List.Chain' (· ≤ ·) (es.dropLast.map fun e => e.percentage.val)

/-- A valid concrete date used for concrete runs. -/
def dateA : JsDate := ⟨2025, 3, 1, 12, 0, 0, 0⟩

/-- Same wall-clock second as `dateA`, different millisecond. -/
def dateB : JsDate := ⟨2025, 3, 1, 12, 0, 0, 1⟩

/-- A fully successful manual backup run: 4-byte dump, two chunks. -/
def benvOK : BackupEnv := ⟨dateA, true, none, false, 4, [2, 2], none, none⟩

/-- A manual backup run whose only failure is `unlinkSync` after success. -/
def benvUnlinkFail : BackupEnv := ⟨dateA, true, none, false, 4, [4], none, some "EPERM"⟩

/-- A manual backup run failing at the upload step (dump already on disk). -/
def benvUploadFail : BackupEnv :=
  ⟨dateA, true, none, false, 4, [1], some "socket hang up", none⟩

/-- A manual backup run failing at the `pg_dump` step, partial file left. -/
def benvDumpFail : BackupEnv := ⟨dateA, true, some "connection refused", true, 0, [], none, none⟩

/-- A successful backup run on a 7-byte dump whose first chunk is 1 byte:
the raw rescaled ratio 1/7*90+10 = 160/7 is not representable in two
decimals. -/
def benvSeven : BackupEnv := ⟨dateA, true, none, false, 7, [1], none, none⟩

/-- A fully successful restore request. -/
def renvOK : RestoreEnv := ⟨"backup-x.sql", none, 4, [2, 2], none, none, none, none⟩

/-- A restore request whose only failure is `unlinkSync` after success. -/
def renvUnlinkFail : RestoreEnv :=
  ⟨"backup-x.sql", none, 4, [4], none, none, none, some "EBUSY"⟩

/-- A restore request whose local write stream fails mid-download. -/
def renvWriteFail : RestoreEnv :=
  ⟨"backup-x.sql", none, 4, [1], none, some "ENOSPC: no space left on device", none, none⟩

/-- A restore request whose remote object stream errors mid-download: the
unlistened `error` event kills the process. -/
def renvStreamFail : RestoreEnv :=
  ⟨"backup-x.sql", none, 4, [1], some "read ECONNRESET", none, none, none⟩

/-- A restore request for a missing key: the metadata call fails. -/
def renvHeadFail : RestoreEnv :=
  ⟨"nope.sql", some "NoSuchKey", 0, [], none, none, none, none⟩

/-- A fully successful disaster-recovery request. -/
def denvOK : DREnv :=
  ⟨"backup-x.sql", 1700000000000, none, none, 4, [2, 2], none, none, none, none⟩

/-- A disaster-recovery request failing at the `psql` step. -/
def denvPsqlFail : DREnv :=
  ⟨"backup-x.sql", 1700000000000, none, none, 4, [4], none, none, some "syntax error", none⟩

/-- A disaster-recovery request whose remote object stream errors
mid-download: the unlistened `error` event kills the process. -/
def denvStreamFail : DREnv :=
  ⟨"backup-x.sql", 1700000000000, none, none, 4, [1], some "read ECONNRESET", none, none, none⟩

/-- A successful delete request. -/
def delenvOK : DeleteEnv := ⟨"backup-x.sql", none⟩

/-- A failing delete request. -/
def delenvFail : DeleteEnv := ⟨"backup-x.sql", some "NoSuchKey"⟩

/-- The character list of the dashed identifier core,
`toISOString().replace(/:/g, '-')`. -/
def JsDate.dashedChars (d : JsDate) : List Char :=
  pad4 d.year ++ '-' :: pad2 d.month ++ '-' :: pad2 d.day ++
    'T' :: pad2 d.hour ++ '-' :: pad2 d.minute ++ '-' :: pad2 d.second ++
      '.' :: pad3 d.ms ++ ['Z']

/-- The spec's progress-mapping policy, as worded: the raw transfer ratio
(bytes so far / total bytes) linearly rescaled into the sub-range
`[lo, hi]` reserved for the phase. -/
def specRescale (lo hi : ℚ) (total bytes : ℕ) : ℚ :=
  (bytes : ℚ) / (total : ℚ) * (hi - lo) + lo

/-- A sample audit-log file content split on newlines (with one empty line). -/
def logsSample : List String := ["line one", "", "line two", "line three"]

theorem toFixed2_mono {q r : ℚ} (h : q ≤ r) : toFixed2 q ≤ toFixed2 r := by
  rw [toFixed2, toFixed2]
  have hf : ⌊q * 100 + 1 / 2⌋ ≤ ⌊r * 100 + 1 / 2⌋ :=
    Int.floor_le_floor (by linarith)
  rw [div_le_div_iff_of_pos_right (by norm_num : (0:ℚ) < 100)]
  exact_mod_cast hf

theorem toFixed2_natCast (n : ℕ) : toFixed2 (n : ℚ) = n := by
  rw [toFixed2]
  have hf : ⌊(n : ℚ) * 100 + 1 / 2⌋ = (100 * n : ℤ) := by
    rw [Int.floor_eq_iff]
    push_cast
    constructor <;> linarith
  rw [hf]
  push_cast
  ring

theorem le_chunkPerc (scale offset : ℚ) (hsc : 0 ≤ scale) (S b : ℕ) :
    toFixed2 offset ≤ chunkPerc scale offset S b := by
  apply toFixed2_mono
  have h : (0 : ℚ) ≤ (b : ℚ) / (S : ℚ) * scale := by positivity
  linarith

theorem chunkPerc_le (scale offset : ℚ) (hsc : 0 ≤ scale) {S b : ℕ}
    (hS : 0 < S) (hb : b ≤ S) :
    chunkPerc scale offset S b ≤ toFixed2 (scale + offset) := by
  apply toFixed2_mono
  have h1 : (b : ℚ) / (S : ℚ) ≤ 1 := by
    rw [div_le_one (by exact_mod_cast hS)]
    exact_mod_cast hb
  have h2 : (b : ℚ) / (S : ℚ) * scale ≤ scale := mul_le_of_le_one_left hsc h1
  linarith

theorem chunkPerc_mono (scale offset : ℚ) (hsc : 0 ≤ scale) (S : ℕ)
    {b c : ℕ} (h : b ≤ c) :
    chunkPerc scale offset S b ≤ chunkPerc scale offset S c := by
  apply toFixed2_mono
  rcases Nat.eq_zero_or_pos S with rfl | hS
  · simp
  · have hS0 : (0 : ℚ) < (S : ℚ) := by exact_mod_cast hS
    have hbc : (b : ℚ) ≤ (c : ℚ) := by exact_mod_cast h
    have hd : (b : ℚ) / (S : ℚ) ≤ (c : ℚ) / (S : ℚ) := by gcongr
    have := mul_le_mul_of_nonneg_right hd hsc
    linarith

theorem le_of_mem_cumSums :
    ∀ (cs : List ℕ) (acc b : ℕ), b ∈ cumSums acc cs → acc ≤ b
  | [], acc, b => by simp [cumSums]
  | c :: cs, acc, b => by
    intro h
    rw [cumSums] at h
    rcases List.mem_cons.mp h with rfl | h
    · omega
    · have := le_of_mem_cumSums cs (acc + c) b h
      omega

theorem mem_cumSums_le :
    ∀ (cs : List ℕ) (acc b : ℕ), b ∈ cumSums acc cs → b ≤ acc + cs.sum
  | [], acc, b => by simp [cumSums]
  | c :: cs, acc, b => by
    intro h
    rw [cumSums] at h
    rcases List.mem_cons.mp h with rfl | h
    · simp [List.sum_cons]
    · have := mem_cumSums_le cs (acc + c) b h
      simp [List.sum_cons] at this ⊢
      omega

theorem cumSums_chain :
    ∀ (cs : List ℕ) (acc : ℕ), List.Chain' (· ≤ ·) (cumSums acc cs)
  | [], _ => List.chain'_nil
  | c :: cs, acc => by
    rw [cumSums, List.chain'_cons']
    refine ⟨fun y hy => ?_, cumSums_chain cs (acc + c)⟩
    exact le_of_mem_cumSums cs (acc + c) y (List.mem_of_mem_head? hy)

theorem chunkEvents_none (msg : String) (scale offset : ℚ) (S : ℕ) (cs : List ℕ) :
    chunkEvents false msg scale offset S cs = [] := by
  simp [chunkEvents]

theorem filter_isTerminal_chunkEvents (s : Bool) (msg : String) (scale offset : ℚ)
    (S : ℕ) (cs : List ℕ) :
    (chunkEvents s msg scale offset S cs).filter Event.isTerminal = [] := by
  rw [List.filter_eq_nil_iff]
  intro e he
  rw [chunkEvents] at he
  rcases s with _ | _
  · simp at he
  · simp only [if_pos] at he
    obtain ⟨b, _, rfl⟩ := List.mem_map.mp he
    simp [Event.isTerminal]

theorem map_val_chunkEvents (msg : String) (scale offset : ℚ) (S : ℕ) (cs : List ℕ) :
    ((chunkEvents true msg scale offset S cs).map fun e => e.percentage.val) =
      (cumSums 0 cs).map (chunkPerc scale offset S) := by
  simp [chunkEvents, List.map_map, Function.comp, PVal.val]

theorem chain_chunkPercs (scale offset : ℚ) (hsc : 0 ≤ scale) (S : ℕ) (cs : List ℕ) :
    List.Chain' (· ≤ ·) ((cumSums 0 cs).map (chunkPerc scale offset S)) :=
  List.chain'_map_of_chain' _ (fun _ _ h => chunkPerc_mono scale offset hsc S h)
    (cumSums_chain cs 0)

theorem mem_chunkPercs_lower (scale offset : ℚ) (hsc : 0 ≤ scale) (S : ℕ) (cs : List ℕ)
    {q : ℚ} (hq : q ∈ (cumSums 0 cs).map (chunkPerc scale offset S)) :
    toFixed2 offset ≤ q := by
  obtain ⟨b, _, rfl⟩ := List.mem_map.mp hq
  exact le_chunkPerc scale offset hsc S b

theorem mem_chunkPercs_upper (scale offset : ℚ) (hsc : 0 ≤ scale) {S : ℕ} {cs : List ℕ}
    (hc : cs.sum ≤ S) (hz : 0 < S ∨ cs = [])
    {q : ℚ} (hq : q ∈ (cumSums 0 cs).map (chunkPerc scale offset S)) :
    q ≤ toFixed2 (scale + offset) := by
  obtain ⟨b, hb, rfl⟩ := List.mem_map.mp hq
  rcases hz with hS | rfl
  · exact chunkPerc_le scale offset hsc hS
      (le_trans (mem_cumSums_le cs 0 b hb) (by omega))
  · rw [cumSums] at hb
    simp at hb

theorem progressOK_concat (es : List Event) (t : Event)
    (hterm : Event.isTerminal t = true)
    (hfilter : es.filter Event.isTerminal = [])
    (hchain : List.Chain' (· ≤ ·) (es.map fun e => e.percentage.val)) :
    ProgressOK (es ++ [t]) := by
  refine ⟨?_, ?_, ?_⟩
  · rw [List.filter_append, hfilter]
    simp [hterm]
  · rw [List.getLast?_concat]
    simp [hterm]
  · rw [List.dropLast_concat]
    exact hchain

theorem toFixed2_zero : toFixed2 0 = 0 := by simpa using toFixed2_natCast 0

theorem toFixed2_ten : toFixed2 10 = 10 := by simpa using toFixed2_natCast 10

theorem toFixed2_eighty : toFixed2 80 = 80 := by simpa using toFixed2_natCast 80

theorem progressOK_of_eq (evs es : List Event) (t : Event)
    (heq : evs = es ++ [t])
    (hterm : Event.isTerminal t = true)
    (hfilter : es.filter Event.isTerminal = [])
    (hchain : List.Chain' (· ≤ ·) (es.map fun e => e.percentage.val)) :
    ProgressOK evs := heq ▸ progressOK_concat es t hterm hfilter hchain

theorem chain_fix_fix_chunk (a b : ℚ) (hab : a ≤ b) (scale : ℚ) (hsc : 0 ≤ scale)
    (S : ℕ) (cs : List ℕ) (hlo : b ≤ toFixed2 b) :
    List.Chain' (· ≤ ·)
      ([a, b] ++ (cumSums 0 cs).map (chunkPerc scale b S)) := by
  rw [List.chain'_append]
  refine ⟨by simp [List.chain'_cons, hab], chain_chunkPercs scale b hsc S cs, ?_⟩
  intro x hx y hy
  simp at hx
  subst hx
  exact le_trans hlo
    (mem_chunkPercs_lower scale b hsc S cs (List.mem_of_mem_head? hy))

theorem progressOK_backup (env : BackupEnv) (hs : env.socket = true)
    (hun : env.dumpErr = none → env.uploadErr = none → env.unlinkErr = none)
    (hc : env.chunks.sum ≤ env.fileSize) (hz : 0 < env.fileSize ∨ env.chunks = []) :
    ProgressOK (performBackup env).events := by
  obtain ⟨d, s, de, dp, S, cs, ue, ule⟩ := env
  dsimp only at hs hun hc hz
  subst hs
  rcases de with _ | e
  · rcases ue with _ | e
    · obtain rfl := hun rfl rfl
      refine progressOK_of_eq _
        ([⟨"Starting backup...", PVal.num 0⟩, ⟨"Uploading backup...", PVal.num 10⟩] ++
          chunkEvents true "Uploading..." 90 10 S cs)
        ⟨"Backup completed", PVal.num 100⟩ ?_ ?_ ?_ ?_
      · simp [performBackup, emitTo]
      · simp [Event.isTerminal]
      · rw [List.filter_append, filter_isTerminal_chunkEvents]
        norm_num [Event.isTerminal, List.filter_cons]
      · rw [List.map_append, map_val_chunkEvents]
        exact chain_fix_fix_chunk 0 10 (by norm_num) 90 (by norm_num) S cs
          (le_of_eq toFixed2_ten.symm)
    · refine progressOK_of_eq _
        ([⟨"Starting backup...", PVal.num 0⟩, ⟨"Uploading backup...", PVal.num 10⟩] ++
          chunkEvents true "Uploading..." 90 10 S cs)
        ⟨"Backup failed", PVal.num (-1)⟩ ?_ ?_ ?_ ?_
      · simp [performBackup, emitTo]
      · simp [Event.isTerminal]
      · rw [List.filter_append, filter_isTerminal_chunkEvents]
        norm_num [Event.isTerminal, List.filter_cons]
      · rw [List.map_append, map_val_chunkEvents]
        exact chain_fix_fix_chunk 0 10 (by norm_num) 90 (by norm_num) S cs
          (le_of_eq toFixed2_ten.symm)
  · exact progressOK_of_eq _ [⟨"Starting backup...", PVal.num 0⟩]
      ⟨"Backup failed", PVal.num (-1)⟩
      (by simp [performBackup, emitTo])
      (by simp [Event.isTerminal])
      (by simp [Event.isTerminal])
      (by simp [PVal.val])

theorem chain_concat_le (l : List ℚ) (b : ℚ) (h : List.Chain' (· ≤ ·) l)
    (hb : ∀ x ∈ l, x ≤ b) : List.Chain' (· ≤ ·) (l ++ [b]) := by
  rw [List.chain'_append]
  refine ⟨h, List.chain'_singleton b, fun x hx y hy => ?_⟩
  simp at hy
  subst hy
  exact hb x (List.mem_of_mem_getLast? hx)

theorem chain_fix_chunk (a scale offset : ℚ) (hsc : 0 ≤ scale) (S : ℕ) (cs : List ℕ)
    (ha : a ≤ toFixed2 offset) :
    List.Chain' (· ≤ ·) ([a] ++ (cumSums 0 cs).map (chunkPerc scale offset S)) := by
  rw [List.chain'_append]
  refine ⟨List.chain'_singleton a, chain_chunkPercs scale offset hsc S cs, fun x hx y hy => ?_⟩
  simp at hx
  subst hx
  exact le_trans ha (mem_chunkPercs_lower scale offset hsc S cs (List.mem_of_mem_head? hy))

theorem progressOK_restore (env : RestoreEnv) (hst : env.streamErr = none)
    (hun : env.headErr = none → env.writeErr = none → env.psqlErr = none →
      env.unlinkErr = none)
    (hc : env.chunks.sum ≤ env.fileSize) (hz : 0 < env.fileSize ∨ env.chunks = []) :
    ProgressOK (restoreRoute env).events := by
  obtain ⟨fn, he, S, cs, st, dl, pe, ule⟩ := env
  dsimp only at hst hun hc hz
  subst hst
  have hch2 : List.Chain' (· ≤ ·)
      (([(0:ℚ)] ++ (cumSums 0 cs).map (chunkPerc 80 0 S)) ++ [(80:ℚ)]) := by
    apply chain_concat_le
    · exact chain_fix_chunk 0 80 0 (by norm_num) S cs (le_of_eq toFixed2_zero.symm)
    · intro x hx
      rcases List.mem_append.mp hx with hx | hx
      · simp at hx
        subst hx
        norm_num
      · have := mem_chunkPercs_upper 80 0 (by norm_num) hc hz hx
        rw [show (80:ℚ) + 0 = 80 by norm_num, toFixed2_eighty] at this
        exact this
  rcases he with _ | e
  · rcases dl with _ | e
    · rcases pe with _ | e
      · obtain rfl := hun rfl rfl rfl
        refine progressOK_of_eq _
          (([⟨"Starting restore...", PVal.num 0⟩] ++
            chunkEvents true "Downloading..." 80 0 S cs) ++
              [⟨"Restoring database...", PVal.num 80⟩])
          ⟨"Restore completed", PVal.num 100⟩ ?_ ?_ ?_ ?_
        · simp [restoreRoute]
        · simp [Event.isTerminal]
        · rw [List.filter_append, List.filter_append, filter_isTerminal_chunkEvents]
          norm_num [Event.isTerminal, List.filter_cons]
        · rw [List.map_append, List.map_append, map_val_chunkEvents]
          exact hch2
      · refine progressOK_of_eq _
          (([⟨"Starting restore...", PVal.num 0⟩] ++
            chunkEvents true "Downloading..." 80 0 S cs) ++
              [⟨"Restoring database...", PVal.num 80⟩])
          ⟨"Restore failed", PVal.num (-1)⟩ ?_ ?_ ?_ ?_
        · simp [restoreRoute]
        · simp [Event.isTerminal]
        · rw [List.filter_append, List.filter_append, filter_isTerminal_chunkEvents]
          norm_num [Event.isTerminal, List.filter_cons]
        · rw [List.map_append, List.map_append, map_val_chunkEvents]
          exact hch2
    · refine progressOK_of_eq _
        ([⟨"Starting restore...", PVal.num 0⟩] ++
          chunkEvents true "Downloading..." 80 0 S cs)
        ⟨"Restore failed", PVal.num (-1)⟩ ?_ ?_ ?_ ?_
      · simp [restoreRoute]
      · simp [Event.isTerminal]
      · rw [List.filter_append, filter_isTerminal_chunkEvents]
        norm_num [Event.isTerminal, List.filter_cons]
      · rw [List.map_append, map_val_chunkEvents]
        exact chain_fix_chunk 0 80 0 (by norm_num) S cs (le_of_eq toFixed2_zero.symm)
  · exact progressOK_of_eq _ [⟨"Starting restore...", PVal.num 0⟩]
      ⟨"Restore failed", PVal.num (-1)⟩
      (by simp [restoreRoute])
      (by simp [Event.isTerminal])
      (by norm_num [Event.isTerminal, List.filter_cons])
      (by simp [PVal.val])

theorem progressOK_dr (env : DREnv) (hst : env.streamErr = none)
    (hun : env.createdbErr = none → env.headErr = none → env.writeErr = none →
      env.psqlErr = none → env.unlinkErr = none)
    (hc : env.chunks.sum ≤ env.fileSize) (hz : 0 < env.fileSize ∨ env.chunks = []) :
    ProgressOK (drRoute env).events := by
  obtain ⟨fn, now, ce, he, S, cs, st, dl, pe, ule⟩ := env
  dsimp only at hst hun hc hz
  subst hst
  have hch1 : List.Chain' (· ≤ ·)
      ([(0:ℚ), 10] ++ (cumSums 0 cs).map (chunkPerc 70 10 S)) :=
    chain_fix_fix_chunk 0 10 (by norm_num) 70 (by norm_num) S cs
      (le_of_eq toFixed2_ten.symm)
  have hch2 : List.Chain' (· ≤ ·)
      (([(0:ℚ), 10] ++ (cumSums 0 cs).map (chunkPerc 70 10 S)) ++ [(80:ℚ)]) := by
    apply chain_concat_le _ _ hch1
    intro x hx
    rcases List.mem_append.mp hx with hx | hx
    · simp at hx
      rcases hx with rfl | rfl <;> norm_num
    · have := mem_chunkPercs_upper 70 10 (by norm_num) hc hz hx
      rw [show (70:ℚ) + 10 = 80 by norm_num, toFixed2_eighty] at this
      exact this
  rcases ce with _ | e
  · rcases he with _ | e
    · rcases dl with _ | e
      · rcases pe with _ | e
        · obtain rfl := hun rfl rfl rfl rfl
          refine progressOK_of_eq _
            (([⟨"Starting disaster recovery...", PVal.num 0⟩,
                ⟨"Temporary database created...", PVal.num 10⟩] ++
              chunkEvents true "Downloading backup..." 70 10 S cs) ++
                [⟨"Restoring to temporary database...", PVal.num 80⟩])
            ⟨"Disaster recovery completed", PVal.num 100⟩ ?_ ?_ ?_ ?_
          · simp [drRoute]
          · simp [Event.isTerminal]
          · rw [List.filter_append, List.filter_append, filter_isTerminal_chunkEvents]
            norm_num [Event.isTerminal, List.filter_cons]
          · rw [List.map_append, List.map_append, map_val_chunkEvents]
            exact hch2
        · refine progressOK_of_eq _
            (([⟨"Starting disaster recovery...", PVal.num 0⟩,
                ⟨"Temporary database created...", PVal.num 10⟩] ++
              chunkEvents true "Downloading backup..." 70 10 S cs) ++
                [⟨"Restoring to temporary database...", PVal.num 80⟩])
            ⟨"Disaster recovery failed", PVal.num (-1)⟩ ?_ ?_ ?_ ?_
          · simp [drRoute]
          · simp [Event.isTerminal]
          · rw [List.filter_append, List.filter_append, filter_isTerminal_chunkEvents]
            norm_num [Event.isTerminal, List.filter_cons]
          · rw [List.map_append, List.map_append, map_val_chunkEvents]
            exact hch2
      · refine progressOK_of_eq _
          ([⟨"Starting disaster recovery...", PVal.num 0⟩,
              ⟨"Temporary database created...", PVal.num 10⟩] ++
            chunkEvents true "Downloading backup..." 70 10 S cs)
          ⟨"Disaster recovery failed", PVal.num (-1)⟩ ?_ ?_ ?_ ?_
        · simp [drRoute]
        · simp [Event.isTerminal]
        · rw [List.filter_append, filter_isTerminal_chunkEvents]
          norm_num [Event.isTerminal, List.filter_cons]
        · rw [List.map_append, map_val_chunkEvents]
          exact hch1
    · refine progressOK_of_eq _
        [⟨"Starting disaster recovery...", PVal.num 0⟩,
          ⟨"Temporary database created...", PVal.num 10⟩]
        ⟨"Disaster recovery failed", PVal.num (-1)⟩ ?_ ?_ ?_ ?_
      · simp [drRoute]
      · simp [Event.isTerminal]
      · norm_num [Event.isTerminal, List.filter_cons]
      · norm_num [PVal.val, List.chain'_cons]
  · exact progressOK_of_eq _ [⟨"Starting disaster recovery...", PVal.num 0⟩]
      ⟨"Disaster recovery failed", PVal.num (-1)⟩
      (by simp [drRoute])
      (by simp [Event.isTerminal])
      (by norm_num [Event.isTerminal, List.filter_cons])
      (by simp [PVal.val])

theorem crash_no_terminal_restore (re : RestoreEnv) (h1 : re.headErr = none)
    (h2 : re.streamErr ≠ none) :
    (restoreRoute re).response = Response.crash ∧
      ((restoreRoute re).events.filter Event.isTerminal).length = 0 ∧
      ∀ l ∈ (restoreRoute re).logs, l.notify = false := by
  obtain ⟨fn, he, S, cs, st, wr, pe, ule⟩ := re
  dsimp only at h1 h2 ⊢
  subst h1
  rcases st with _ | e
  · simp at h2
  · refine ⟨rfl, ?_, ?_⟩
    · simp [restoreRoute, List.filter_append, filter_isTerminal_chunkEvents,
        List.filter_cons, Event.isTerminal]
    · intro l hl
      simp [restoreRoute] at hl
      subst hl
      rfl

theorem crash_no_terminal_dr (de : DREnv) (h0 : de.createdbErr = none)
    (h1 : de.headErr = none) (h2 : de.streamErr ≠ none) :
    (drRoute de).response = Response.crash ∧
      ((drRoute de).events.filter Event.isTerminal).length = 0 ∧
      ∀ l ∈ (drRoute de).logs, l.notify = false := by
  obtain ⟨fn, now, ce, he, S, cs, st, wr, pe, ule⟩ := de
  dsimp only at h0 h1 h2 ⊢
  subst h0 h1
  rcases st with _ | e
  · simp at h2
  · refine ⟨rfl, ?_, ?_⟩
    · norm_num [drRoute, List.filter_append, filter_isTerminal_chunkEvents,
        List.filter_cons, Event.isTerminal]
    · intro l hl
      simp [drRoute] at hl
      rcases hl with rfl | rfl <;> rfl

/-- C2: for every single operation run (backup, restore, disaster recovery),
the emitted percentages are non-decreasing and exactly one terminal value
(100 or −1) is emitted, last.  Amended: this holds provided the run has an
attached observer (manual backup; restore and disaster recovery always
emit), the transfer is well-formed, no remote storage error strikes the
download stream, and `unlinkSync` does not fail after the terminal 100 was
already emitted.  A post-success `unlinkSync` failure emits a second
terminal (−1) after the 100; an observer-less scheduled run emits no
terminal at all; and a remote error on the unlistened download stream kills
the process after the chunk events, so such a run emits no terminal
either (final two conjuncts). -/
theorem C2_progress_sequences (be : BackupEnv) (re : RestoreEnv) (de : DREnv)
    (re2 : RestoreEnv) (de2 : DREnv)
    (hbs : be.socket = true)
    (hb : be.dumpErr = none → be.uploadErr = none → be.unlinkErr = none)
    (hbc : be.chunks.sum ≤ be.fileSize) (hbz : 0 < be.fileSize ∨ be.chunks = [])
    (hrs : re.streamErr = none)
    (hr : re.headErr = none → re.writeErr = none → re.psqlErr = none →
      re.unlinkErr = none)
    (hrc : re.chunks.sum ≤ re.fileSize) (hrz : 0 < re.fileSize ∨ re.chunks = [])
    (hds : de.streamErr = none)
    (hd : de.createdbErr = none → de.headErr = none → de.writeErr = none →
      de.psqlErr = none → de.unlinkErr = none)
    (hdc : de.chunks.sum ≤ de.fileSize) (hdz : 0 < de.fileSize ∨ de.chunks = [])
    (h2h : re2.headErr = none) (h2s : re2.streamErr ≠ none)
    (h3c : de2.createdbErr = none) (h3h : de2.headErr = none)
    (h3s : de2.streamErr ≠ none) :
    ProgressOK (performBackup be).events ∧ ProgressOK (restoreRoute re).events ∧
      ProgressOK (drRoute de).events ∧
      ((restoreRoute re2).events.filter Event.isTerminal).length = 0 ∧
      ((drRoute de2).events.filter Event.isTerminal).length = 0 :=
  ⟨progressOK_backup be hbs hb hbc hbz, progressOK_restore re hrs hr hrc hrz,
    progressOK_dr de hds hd hdc hdz,
    (crash_no_terminal_restore re2 h2h h2s).2.1,
    (crash_no_terminal_dr de2 h3c h3h h3s).2.1⟩

/-- C2 counterexample: the backup run whose `unlinkSync` fails after the
upload emits the terminal 100 and then a second terminal −1, so its progress
sequence violates the claimed single-terminal property. -/
theorem C2_counterexample : ¬ ProgressOK (performBackup benvUnlinkFail).events := by
  intro h
  obtain ⟨h1, -, -⟩ := h
  revert h1
  norm_num [performBackup, emitTo, benvUnlinkFail, List.filter_append,
    filter_isTerminal_chunkEvents, List.filter_cons, Event.isTerminal]

theorem C2_witness :
    ProgressOK (performBackup benvOK).events ∧ ProgressOK (restoreRoute renvOK).events ∧
      ProgressOK (drRoute denvOK).events ∧
      ((restoreRoute renvStreamFail).events.filter Event.isTerminal).length = 0 ∧
      ((drRoute denvStreamFail).events.filter Event.isTerminal).length = 0 :=
  C2_progress_sequences benvOK renvOK denvOK renvStreamFail denvStreamFail
    rfl (fun _ _ => rfl) (by decide) (Or.inl (by decide))
    rfl (fun _ _ _ => rfl) (by decide) (Or.inl (by decide))
    rfl (fun _ _ _ _ => rfl) (by decide) (Or.inl (by decide))
    rfl (by decide) rfl rfl (by decide)

/-- C1 (amended): the temp file is deleted only on the fully successful
path.  After a successful backup or restore run the temp file is absent, but
on the failure path no deletion is attempted: if the temp file existed when
the error was raised (upload, local write, psql or unlink failures, a
partial dump left by a failed `pg_dump`, or the uncaught crash on a remote
download-stream error), it remains afterwards; only failures raised before
the temp file was created leave none behind. -/
theorem C1_temp_file_lifecycle :
    (∀ be : BackupEnv, (performBackup be).success = true →
      (performBackup be).tempExists = false) ∧
    (∀ be : BackupEnv, be.dumpErr = none →
      (be.uploadErr ≠ none ∨ be.unlinkErr ≠ none) →
      (performBackup be).success = false ∧ (performBackup be).tempExists = true) ∧
    (∀ (be : BackupEnv) (e : String), be.dumpErr = some e →
      (performBackup be).tempExists = be.dumpPartialFile) ∧
    (∀ re : RestoreEnv, (restoreRoute re).response = Response.redirect "/" →
      (restoreRoute re).tempExists = false) ∧
    (∀ re : RestoreEnv, re.headErr = none → re.streamErr = none →
      (re.writeErr ≠ none ∨ re.psqlErr ≠ none ∨ re.unlinkErr ≠ none) →
      (restoreRoute re).response = Response.status 500 "Restore failed" ∧
        (restoreRoute re).tempExists = true) ∧
    (∀ re : RestoreEnv, re.headErr = none → re.streamErr ≠ none →
      (restoreRoute re).response = Response.crash ∧
        (restoreRoute re).tempExists = true) ∧
    (∀ (re : RestoreEnv) (e : String), re.headErr = some e →
      (restoreRoute re).tempExists = false) := by
  refine ⟨?_, ?_, ?_, ?_, ?_, ?_, ?_⟩
  · intro be h
    obtain ⟨d, s, de, dp, S, cs, ue, ule⟩ := be
    rcases de with _ | e
    · rcases ue with _ | e
      · rcases ule with _ | e
        · simp [performBackup]
        · simp [performBackup] at h
      · simp [performBackup] at h
    · simp [performBackup] at h
  · intro be hde hfail
    obtain ⟨d, s, de, dp, S, cs, ue, ule⟩ := be
    dsimp only at hde hfail
    subst hde
    rcases ue with _ | e
    · rcases ule with _ | e
      · simp at hfail
      · simp [performBackup]
    · simp [performBackup]
  · intro be e hde
    obtain ⟨d, s, de, dp, S, cs, ue, ule⟩ := be
    dsimp only at hde ⊢
    subst hde
    simp [performBackup]
  · intro re h
    obtain ⟨fn, he, S, cs, st, wr, pe, ule⟩ := re
    rcases he with _ | e
    · rcases st with _ | e
      · rcases wr with _ | e
        · rcases pe with _ | e
          · rcases ule with _ | e
            · simp [restoreRoute]
            · simp [restoreRoute] at h
          · simp [restoreRoute] at h
        · simp [restoreRoute] at h
      · simp [restoreRoute] at h
    · simp [restoreRoute] at h
  · intro re hhe hst hfail
    obtain ⟨fn, he, S, cs, st, wr, pe, ule⟩ := re
    dsimp only at hhe hst hfail
    subst hhe hst
    rcases wr with _ | e
    · rcases pe with _ | e
      · rcases ule with _ | e
        · simp at hfail
        · simp [restoreRoute]
      · simp [restoreRoute]
    · simp [restoreRoute]
  · intro re hhe hst
    obtain ⟨fn, he, S, cs, st, wr, pe, ule⟩ := re
    dsimp only at hhe hst ⊢
    subst hhe
    rcases st with _ | e
    · simp at hst
    · simp [restoreRoute]
  · intro re e hhe
    obtain ⟨fn, he, S, cs, st, wr, pe, ule⟩ := re
    dsimp only at hhe ⊢
    subst hhe
    simp [restoreRoute]

/-- C1 counterexample: a backup run that fails at the upload step (the dump
already on disk) ends with the temp file still present — the claimed
deletion on the failure path does not happen. -/
theorem C1_counterexample :
    (performBackup benvUploadFail).success = false ∧
      (performBackup benvUploadFail).tempExists = true := by
  constructor <;> rfl

theorem C1_witness :
    (performBackup benvOK).tempExists = false ∧
      ((performBackup benvUploadFail).success = false ∧
        (performBackup benvUploadFail).tempExists = true) ∧
      (restoreRoute renvOK).tempExists = false ∧
      ((restoreRoute renvWriteFail).response =
          Response.status 500 "Restore failed" ∧
        (restoreRoute renvWriteFail).tempExists = true) ∧
      ((restoreRoute renvStreamFail).response = Response.crash ∧
        (restoreRoute renvStreamFail).tempExists = true) ∧
      (restoreRoute renvHeadFail).tempExists = false :=
  ⟨C1_temp_file_lifecycle.1 benvOK rfl,
    C1_temp_file_lifecycle.2.1 benvUploadFail rfl (Or.inl (by simp [benvUploadFail])),
    C1_temp_file_lifecycle.2.2.2.1 renvOK rfl,
    C1_temp_file_lifecycle.2.2.2.2.1 renvWriteFail rfl rfl
      (Or.inl (by simp [renvWriteFail])),
    C1_temp_file_lifecycle.2.2.2.2.2.1 renvStreamFail rfl (by simp [renvStreamFail]),
    C1_temp_file_lifecycle.2.2.2.2.2.2 renvHeadFail "NoSuchKey" rfl⟩

/-- C10 (confirmed): when `unlinkSync` fails after the main effect succeeded
and the terminal 100 was emitted, the same `catch` handles it: the run
additionally emits −1 (as the final event), writes an escalated audit
entry, and reports overall failure (`false` return for backup, 500 for
restore) even though the upload, respectively the database restore, had
completed (witnessed by their success log entries). -/
theorem C10_unlink_failure_handling (be : BackupEnv) (e : String)
    (hbs : be.socket = true) (h1 : be.dumpErr = none) (h2 : be.uploadErr = none)
    (h3 : be.unlinkErr = some e)
    (re : RestoreEnv) (f : String) (r1 : re.headErr = none)
    (r2a : re.streamErr = none) (r2b : re.writeErr = none)
    (r3 : re.psqlErr = none) (r4 : re.unlinkErr = some f) :
    ((performBackup be).success = false ∧
      ⟨"Backup uploaded: " ++ backupFilename be.date, false⟩ ∈ (performBackup be).logs ∧
      ⟨"Backup completed", PVal.num 100⟩ ∈ (performBackup be).events ∧
      (performBackup be).events.getLast? = some ⟨"Backup failed", PVal.num (-1)⟩ ∧
      ⟨"Backup failed: " ++ e, true⟩ ∈ (performBackup be).logs) ∧
    ((restoreRoute re).response = Response.status 500 "Restore failed" ∧
      ⟨"Database restored successfully from: " ++ re.filename, true⟩ ∈
        (restoreRoute re).logs ∧
      ⟨"Restore completed", PVal.num 100⟩ ∈ (restoreRoute re).events ∧
      (restoreRoute re).events.getLast? = some ⟨"Restore failed", PVal.num (-1)⟩ ∧
      ⟨"Restore failed: " ++ f, true⟩ ∈ (restoreRoute re).logs) := by
  obtain ⟨d, s, de, dp, S, cs, ue, ule⟩ := be
  obtain ⟨fn, he, S2, cs2, st2, wr2, pe, ule2⟩ := re
  dsimp only at hbs h1 h2 h3 r1 r2a r2b r3 r4 ⊢
  subst hbs h1 h2 h3 r1 r2a r2b r3 r4
  have hbev : (performBackup ⟨d, true, none, dp, S, cs, none, some e⟩).events =
      ([⟨"Starting backup...", PVal.num 0⟩, ⟨"Uploading backup...", PVal.num 10⟩] ++
        chunkEvents true "Uploading..." 90 10 S cs ++
          [⟨"Backup completed", PVal.num 100⟩]) ++
        [⟨"Backup failed", PVal.num (-1)⟩] := by
    simp [performBackup, emitTo]
  have hrev : (restoreRoute ⟨fn, none, S2, cs2, none, none, none, some f⟩).events =
      ([⟨"Starting restore...", PVal.num 0⟩] ++
        chunkEvents true "Downloading..." 80 0 S2 cs2 ++
          [⟨"Restoring database...", PVal.num 80⟩, ⟨"Restore completed", PVal.num 100⟩]) ++
        [⟨"Restore failed", PVal.num (-1)⟩] := by
    simp [restoreRoute]
  refine ⟨⟨?_, ?_, ?_, ?_, ?_⟩, ?_, ?_, ?_, ?_, ?_⟩
  · rfl
  · simp [performBackup, emitTo]
  · rw [hbev]
    simp
  · rw [hbev, List.getLast?_concat]
  · simp [performBackup, emitTo]
  · rfl
  · simp [restoreRoute]
  · rw [hrev]
    simp
  · rw [hrev, List.getLast?_concat]
  · simp [restoreRoute]

theorem C10_witness :
    ((performBackup benvUnlinkFail).success = false ∧
      ⟨"Backup uploaded: " ++ backupFilename benvUnlinkFail.date, false⟩ ∈
        (performBackup benvUnlinkFail).logs ∧
      ⟨"Backup completed", PVal.num 100⟩ ∈ (performBackup benvUnlinkFail).events ∧
      (performBackup benvUnlinkFail).events.getLast? =
        some ⟨"Backup failed", PVal.num (-1)⟩ ∧
      ⟨"Backup failed: " ++ "EPERM", true⟩ ∈ (performBackup benvUnlinkFail).logs) ∧
    ((restoreRoute renvUnlinkFail).response = Response.status 500 "Restore failed" ∧
      ⟨"Database restored successfully from: " ++ renvUnlinkFail.filename, true⟩ ∈
        (restoreRoute renvUnlinkFail).logs ∧
      ⟨"Restore completed", PVal.num 100⟩ ∈ (restoreRoute renvUnlinkFail).events ∧
      (restoreRoute renvUnlinkFail).events.getLast? =
        some ⟨"Restore failed", PVal.num (-1)⟩ ∧
      ⟨"Restore failed: " ++ "EBUSY", true⟩ ∈ (restoreRoute renvUnlinkFail).logs) :=
  C10_unlink_failure_handling benvUnlinkFail "EPERM" rfl rfl rfl rfl
    renvUnlinkFail "EBUSY" rfl rfl rfl rfl rfl

theorem digitChar_fin_inj : ∀ a b : Fin 10, Nat.digitChar a = Nat.digitChar b → a = b := by
  decide

theorem digitChar_fin_ne_colon : ∀ a : Fin 10, Nat.digitChar a ≠ ':' := by decide

theorem dChar_inj {a b : ℕ} (h : dChar a = dChar b) : a % 10 = b % 10 := by
  have ha : a % 10 < 10 := Nat.mod_lt _ (by norm_num)
  have hb : b % 10 < 10 := Nat.mod_lt _ (by norm_num)
  have := digitChar_fin_inj ⟨a % 10, ha⟩ ⟨b % 10, hb⟩ h
  exact congrArg Fin.val this

theorem dChar_ne_colon (n : ℕ) : dChar n ≠ ':' := by
  have h : n % 10 < 10 := Nat.mod_lt _ (by norm_num)
  exact digitChar_fin_ne_colon ⟨n % 10, h⟩

theorem replaceColons_iso (d : JsDate) :
    replaceColons d.toISOString = String.mk d.dashedChars := by
  rw [replaceColons, JsDate.toISOString]
  have hl : (String.mk d.isoChars).toList = d.isoChars := rfl
  rw [hl]
  congr 1
  rw [JsDate.isoChars, JsDate.dashedChars]
  simp [pad2, pad3, pad4, dChar_ne_colon]

theorem backupFilename_eq_aux {d e : JsDate}
    (h : backupFilename d = backupFilename e) : d.dashedChars = e.dashedChars := by
  rw [backupFilename, backupFilename, replaceColons_iso, replaceColons_iso] at h
  have h2 := congrArg String.data h
  simp only [String.data_append] at h2
  have h3 := List.append_cancel_right h2
  exact List.append_cancel_left h3

theorem dashedChars_inj {d e : JsDate} (hv : d.Valid) (hv' : e.Valid)
    (h : d.dashedChars = e.dashedChars) : d = e := by
  obtain ⟨y, mo, da, ho, mi, se, ms⟩ := d
  obtain ⟨y2, mo2, da2, ho2, mi2, se2, ms2⟩ := e
  obtain ⟨hy, hmo, hda, hho, hmi, hse, hms⟩ := hv
  obtain ⟨hy2, hmo2, hda2, hho2, hmi2, hse2, hms2⟩ := hv'
  dsimp only at hy hmo hda hho hmi hse hms hy2 hmo2 hda2 hho2 hmi2 hse2 hms2
  rw [JsDate.dashedChars, JsDate.dashedChars] at h
  simp only [pad2, pad3, pad4, List.cons_append, List.nil_append, List.cons.injEq,
    List.append_assoc] at h
  obtain ⟨a1, a2, a3, a4, -, b1, b2, -, c1, c2, -, d1, d2, -, e1, e2, -, f1, f2, -,
    g1, g2, g3, -⟩ := h
  have ha1 := dChar_inj a1
  have ha2 := dChar_inj a2
  have ha3 := dChar_inj a3
  have ha4 := dChar_inj a4
  have hb1 := dChar_inj b1
  have hb2 := dChar_inj b2
  have hc1 := dChar_inj c1
  have hc2 := dChar_inj c2
  have hd1 := dChar_inj d1
  have hd2 := dChar_inj d2
  have he1 := dChar_inj e1
  have he2 := dChar_inj e2
  have hf1 := dChar_inj f1
  have hf2 := dChar_inj f2
  have hg1 := dChar_inj g1
  have hg2 := dChar_inj g2
  have hg3 := dChar_inj g3
  simp only [JsDate.mk.injEq]
  refine ⟨by omega, by omega, by omega, by omega, by omega, by omega, by omega⟩

/-- C4 (amended): artifact identifiers are derived from
`toISOString`, which has millisecond resolution, not second resolution:
for valid instants the identifier determines the instant exactly, so two
runs collide precisely when started in the same millisecond; runs started
in different milliseconds — even within the same wall-clock second — and a
fortiori in different seconds, produce distinct identifiers. -/
theorem C4_artifact_identifier_resolution (d e : JsDate)
    (hv : d.Valid) (hv' : e.Valid) :
    backupFilename d = backupFilename e ↔ d = e :=
  ⟨fun h => dashedChars_inj hv hv' (backupFilename_eq_aux h),
    fun h => by rw [h]⟩

/-- C4 counterexample: two backup runs started in the same wall-clock second
(equal down to the second, different millisecond) produce distinct artifact
identifiers, refuting the claimed same-second collision. -/
theorem C4_counterexample :
    dateA.year = dateB.year ∧ dateA.month = dateB.month ∧ dateA.day = dateB.day ∧
      dateA.hour = dateB.hour ∧ dateA.minute = dateB.minute ∧
      dateA.second = dateB.second ∧
      backupFilename dateA ≠ backupFilename dateB := by
  refine ⟨rfl, rfl, rfl, rfl, rfl, rfl, ?_⟩
  decide

theorem C4_witness :
    dateA.Valid ∧ dateB.Valid ∧
      (backupFilename dateA = backupFilename dateB ↔ dateA = dateB) :=
  ⟨by decide, by decide,
    C4_artifact_identifier_resolution dateA dateB (by decide) (by decide)⟩

theorem chunkPerc_eq_specRescale (scale offset : ℚ) (S b : ℕ) :
    chunkPerc scale offset S b = toFixed2 (specRescale offset (scale + offset) S b) := by
  rw [chunkPerc, specRescale]
  congr 1
  ring

theorem filter_message_map (msg : String) (g : ℕ → PVal) (l : List ℕ) :
    ((l.map fun b => Event.mk msg (g b)).filter fun ev => decide (ev.message = msg)) =
      l.map fun b => Event.mk msg (g b) := by
  rw [List.filter_eq_self]
  intro a ha
  obtain ⟨b, _, rfl⟩ := List.mem_map.mp ha
  simp

/-- C3 (amended): each per-chunk emission carries the raw ratio linearly
rescaled into the phase's reserved sub-range — `[10,100]` for backup
uploads, `[0,80]` for restore downloads, `[10,80]` for disaster-recovery
downloads — but rounded to two decimals by `toFixed(2)` and sent as a
string, not as the exact number. -/
theorem C3_progress_rescaling (be : BackupEnv) (re : RestoreEnv) (de : DREnv)
    (hbs : be.socket = true) (hbd : be.dumpErr = none)
    (hrh : re.headErr = none)
    (hdc : de.createdbErr = none) (hdh : de.headErr = none) :
    ((performBackup be).events.filter fun ev => decide (ev.message = "Uploading...")) =
      ((cumSums 0 be.chunks).map fun b =>
        ⟨"Uploading...", PVal.str (toFixed2 (specRescale 10 100 be.fileSize b))⟩) ∧
    ((restoreRoute re).events.filter fun ev => decide (ev.message = "Downloading...")) =
      ((cumSums 0 re.chunks).map fun b =>
        ⟨"Downloading...", PVal.str (toFixed2 (specRescale 0 80 re.fileSize b))⟩) ∧
    ((drRoute de).events.filter fun ev => decide (ev.message = "Downloading backup...")) =
      ((cumSums 0 de.chunks).map fun b =>
        ⟨"Downloading backup...", PVal.str (toFixed2 (specRescale 10 80 de.fileSize b))⟩) := by
  have hb90 : ∀ S b, chunkPerc 90 10 S b = toFixed2 (specRescale 10 100 S b) := by
    intro S b
    rw [chunkPerc_eq_specRescale]
    norm_num
  have hb80 : ∀ S b, chunkPerc 80 0 S b = toFixed2 (specRescale 0 80 S b) := by
    intro S b
    rw [chunkPerc_eq_specRescale]
    norm_num
  have hb70 : ∀ S b, chunkPerc 70 10 S b = toFixed2 (specRescale 10 80 S b) := by
    intro S b
    rw [chunkPerc_eq_specRescale]
    norm_num
  refine ⟨?_, ?_, ?_⟩
  · obtain ⟨d, s, de', dp, S, cs, ue, ule⟩ := be
    dsimp only at hbs hbd
    subst hbs hbd
    rcases ue with _ | e
    · rcases ule with _ | e
      · simp [performBackup, emitTo, chunkEvents, List.filter_append, List.filter_cons,
          filter_message_map, hb90]
      · simp [performBackup, emitTo, chunkEvents, List.filter_append, List.filter_cons,
          filter_message_map, hb90]
    · simp [performBackup, emitTo, chunkEvents, List.filter_append, List.filter_cons,
        filter_message_map, hb90]
  · obtain ⟨fn, he, S, cs, st, wr, pe, ule⟩ := re
    dsimp only at hrh
    subst hrh
    rcases st with _ | e
    · rcases wr with _ | e
      · rcases pe with _ | e
        · rcases ule with _ | e
          · simp [restoreRoute, chunkEvents, List.filter_append, List.filter_cons,
              filter_message_map, hb80]
          · simp [restoreRoute, chunkEvents, List.filter_append, List.filter_cons,
              filter_message_map, hb80]
        · simp [restoreRoute, chunkEvents, List.filter_append, List.filter_cons,
            filter_message_map, hb80]
      · simp [restoreRoute, chunkEvents, List.filter_append, List.filter_cons,
          filter_message_map, hb80]
    · simp [restoreRoute, chunkEvents, List.filter_append, List.filter_cons,
        filter_message_map, hb80]
  · obtain ⟨fn, now, ce, he, S, cs, st, wr, pe, ule⟩ := de
    dsimp only at hdc hdh
    subst hdc hdh
    rcases st with _ | e
    · rcases wr with _ | e
      · rcases pe with _ | e
        · rcases ule with _ | e
          · simp [drRoute, chunkEvents, List.filter_append, List.filter_cons,
              filter_message_map, hb70]
          · simp [drRoute, chunkEvents, List.filter_append, List.filter_cons,
              filter_message_map, hb70]
        · simp [drRoute, chunkEvents, List.filter_append, List.filter_cons,
            filter_message_map, hb70]
      · simp [drRoute, chunkEvents, List.filter_append, List.filter_cons,
          filter_message_map, hb70]
    · simp [drRoute, chunkEvents, List.filter_append, List.filter_cons,
        filter_message_map, hb70]

/-- C3 counterexample: on a 7-byte upload after a 1-byte chunk the code
emits the string `"22.86"` — the value 1143/50, which differs from the raw
rescaled ratio 1/7·90+10 = 160/7 claimed by the spec, and is not a number
at all. -/
theorem C3_counterexample :
    (performBackup benvSeven).events =
      [⟨"Starting backup...", PVal.num 0⟩, ⟨"Uploading backup...", PVal.num 10⟩,
        ⟨"Uploading...", PVal.str (1143 / 50)⟩, ⟨"Backup completed", PVal.num 100⟩] ∧
      (1143 / 50 : ℚ) ≠ specRescale 10 100 7 1 ∧
      ∀ q : ℚ, PVal.str (1143 / 50) ≠ PVal.num q := by
  refine ⟨?_, ?_, fun q h => PVal.noConfusion h⟩
  · have h1 : chunkPerc 90 10 7 1 = 1143 / 50 := by
      rw [chunkPerc, toFixed2]
      push_cast
      rw [show ((1 : ℚ) / 7 * 90 + 10) * 100 + 1 / 2 = 32007 / 14 by norm_num]
      have hf : (⌊(32007 / 14 : ℚ)⌋ : ℤ) = 2286 := by
        rw [Int.floor_eq_iff]
        norm_num
      rw [hf]
      norm_num
    simp [performBackup, benvSeven, emitTo, chunkEvents, cumSums, h1]
  · rw [specRescale]
    norm_num

theorem C3_witness :
    ((performBackup benvSeven).events.filter fun ev =>
        decide (ev.message = "Uploading...")) =
      ((cumSums 0 benvSeven.chunks).map fun b =>
        ⟨"Uploading...", PVal.str (toFixed2 (specRescale 10 100 benvSeven.fileSize b))⟩) ∧
    ((restoreRoute renvOK).events.filter fun ev =>
        decide (ev.message = "Downloading...")) =
      ((cumSums 0 renvOK.chunks).map fun b =>
        ⟨"Downloading...", PVal.str (toFixed2 (specRescale 0 80 renvOK.fileSize b))⟩) ∧
    ((drRoute denvOK).events.filter fun ev =>
        decide (ev.message = "Downloading backup...")) =
      ((cumSums 0 denvOK.chunks).map fun b =>
        ⟨"Downloading backup...",
          PVal.str (toFixed2 (specRescale 10 80 denvOK.fileSize b))⟩) :=
  C3_progress_rescaling benvSeven renvOK denvOK rfl rfl rfl rfl rfl

theorem toFixed2_hundred : toFixed2 100 = 100 := by simpa using toFixed2_natCast 100

theorem chunkEvents_val_bounds (s : Bool) (msg : String) (scale offset : ℚ)
    (hsc : 0 ≤ scale) (hlo : -1 ≤ toFixed2 offset) (hhi : toFixed2 (scale + offset) ≤ 100)
    {S : ℕ} {cs : List ℕ} (hc : cs.sum ≤ S) (hz : 0 < S ∨ cs = []) :
    ∀ e ∈ chunkEvents s msg scale offset S cs,
      -1 ≤ e.percentage.val ∧ e.percentage.val ≤ 100 := by
  intro e he
  rw [chunkEvents] at he
  rcases s with _ | _
  · simp at he
  · simp only [if_pos] at he
    obtain ⟨b, hb, rfl⟩ := List.mem_map.mp he
    refine ⟨le_trans hlo (le_chunkPerc scale offset hsc S b), ?_⟩
    have hup : chunkPerc scale offset S b ≤ toFixed2 (scale + offset) := by
      rcases hz with hS | rfl
      · exact chunkPerc_le scale offset hsc hS
          (le_trans (mem_cumSums_le cs 0 b hb) (by omega))
      · rw [cumSums] at hb
        simp at hb
    exact le_trans hup hhi

theorem eventBounds_backup (be : BackupEnv) (hbc : be.chunks.sum ≤ be.fileSize)
    (hbz : 0 < be.fileSize ∨ be.chunks = []) :
    ∀ e ∈ (performBackup be).events, -1 ≤ e.percentage.val ∧ e.percentage.val ≤ 100 := by
  obtain ⟨d, s, de, dp, S, cs, ue, ule⟩ := be
  dsimp only at hbc hbz ⊢
  have h90 : toFixed2 ((90 : ℚ) + 10) ≤ 100 := by
    rw [show (90 : ℚ) + 10 = 100 by norm_num, toFixed2_hundred]
  have hch := chunkEvents_val_bounds s "Uploading..." 90 10 (by norm_num)
    (by rw [toFixed2_ten]; norm_num) h90 hbc hbz
  rcases s with _ | _
  · rcases de with _ | e <;> rcases ue with _ | e2 <;> rcases ule with _ | e3 <;>
      · intro e he
        simp [performBackup, emitTo, chunkEvents] at he
  · rcases de with _ | e
    · rcases ue with _ | e
      · rcases ule with _ | e
        · intro e he
          simp [performBackup, emitTo] at he
          rcases he with rfl | rfl | he | rfl
          · norm_num [PVal.val]
          · norm_num [PVal.val]
          · exact hch e he
          · norm_num [PVal.val]
        · intro e he
          simp [performBackup, emitTo] at he
          rcases he with rfl | rfl | he | rfl | rfl
          · norm_num [PVal.val]
          · norm_num [PVal.val]
          · exact hch e he
          · norm_num [PVal.val]
          · norm_num [PVal.val]
      · intro e he
        simp [performBackup, emitTo] at he
        rcases he with rfl | rfl | he | rfl
        · norm_num [PVal.val]
        · norm_num [PVal.val]
        · exact hch e he
        · norm_num [PVal.val]
    · intro e he
      simp [performBackup, emitTo] at he
      rcases he with rfl | rfl
      · norm_num [PVal.val]
      · norm_num [PVal.val]

theorem eventBounds_restore (re : RestoreEnv) (hrc : re.chunks.sum ≤ re.fileSize)
    (hrz : 0 < re.fileSize ∨ re.chunks = []) :
    ∀ e ∈ (restoreRoute re).events, -1 ≤ e.percentage.val ∧ e.percentage.val ≤ 100 := by
  obtain ⟨fn, he', S, cs, st, wr, pe, ule⟩ := re
  dsimp only at hrc hrz ⊢
  have h80 : toFixed2 ((80 : ℚ) + 0) ≤ 100 := by
    rw [show (80 : ℚ) + 0 = 80 by norm_num, toFixed2_eighty]
    norm_num
  have hch := chunkEvents_val_bounds true "Downloading..." 80 0 (by norm_num)
    (by rw [toFixed2_zero]; norm_num) h80 hrc hrz
  rcases he' with _ | e
  · rcases st with _ | e
    · rcases wr with _ | e
      · rcases pe with _ | e
        · rcases ule with _ | e
          · intro e he
            simp [restoreRoute] at he
            rcases he with rfl | he | rfl | rfl
            · norm_num [PVal.val]
            · exact hch e he
            · norm_num [PVal.val]
            · norm_num [PVal.val]
          · intro e he
            simp [restoreRoute] at he
            rcases he with rfl | he | rfl | rfl | rfl
            · norm_num [PVal.val]
            · exact hch e he
            · norm_num [PVal.val]
            · norm_num [PVal.val]
            · norm_num [PVal.val]
        · intro e he
          simp [restoreRoute] at he
          rcases he with rfl | he | rfl | rfl
          · norm_num [PVal.val]
          · exact hch e he
          · norm_num [PVal.val]
          · norm_num [PVal.val]
      · intro e he
        simp [restoreRoute] at he
        rcases he with rfl | he | rfl
        · norm_num [PVal.val]
        · exact hch e he
        · norm_num [PVal.val]
    · intro e he
      simp [restoreRoute] at he
      rcases he with rfl | he
      · norm_num [PVal.val]
      · exact hch e he
  · intro e he
    simp [restoreRoute] at he
    rcases he with rfl | rfl
    · norm_num [PVal.val]
    · norm_num [PVal.val]

theorem eventBounds_dr (de : DREnv) (hdc : de.chunks.sum ≤ de.fileSize)
    (hdz : 0 < de.fileSize ∨ de.chunks = []) :
    ∀ e ∈ (drRoute de).events, -1 ≤ e.percentage.val ∧ e.percentage.val ≤ 100 := by
  obtain ⟨fn, now, ce, he', S, cs, st, wr, pe, ule⟩ := de
  dsimp only at hdc hdz ⊢
  have h80 : toFixed2 ((70 : ℚ) + 10) ≤ 100 := by
    rw [show (70 : ℚ) + 10 = 80 by norm_num, toFixed2_eighty]
    norm_num
  have hch := chunkEvents_val_bounds true "Downloading backup..." 70 10 (by norm_num)
    (by rw [toFixed2_ten]; norm_num) h80 hdc hdz
  rcases ce with _ | e
  · rcases he' with _ | e
    · rcases st with _ | e
      · rcases wr with _ | e
        · rcases pe with _ | e
          · rcases ule with _ | e
            · intro e he
              simp [drRoute] at he
              rcases he with rfl | rfl | he | rfl | rfl
              · norm_num [PVal.val]
              · norm_num [PVal.val]
              · exact hch e he
              · norm_num [PVal.val]
              · norm_num [PVal.val]
            · intro e he
              simp [drRoute] at he
              rcases he with rfl | rfl | he | rfl | rfl | rfl
              · norm_num [PVal.val]
              · norm_num [PVal.val]
              · exact hch e he
              · norm_num [PVal.val]
              · norm_num [PVal.val]
              · norm_num [PVal.val]
          · intro e he
            simp [drRoute] at he
            rcases he with rfl | rfl | he | rfl | rfl
            · norm_num [PVal.val]
            · norm_num [PVal.val]
            · exact hch e he
            · norm_num [PVal.val]
            · norm_num [PVal.val]
        · intro e he
          simp [drRoute] at he
          rcases he with rfl | rfl | he | rfl
          · norm_num [PVal.val]
          · norm_num [PVal.val]
          · exact hch e he
          · norm_num [PVal.val]
      · intro e he
        simp [drRoute] at he
        rcases he with rfl | rfl | he
        · norm_num [PVal.val]
        · norm_num [PVal.val]
        · exact hch e he
    · intro e he
      simp [drRoute] at he
      rcases he with rfl | rfl | rfl
      · norm_num [PVal.val]
      · norm_num [PVal.val]
      · norm_num [PVal.val]
  · intro e he
    simp [drRoute] at he
    rcases he with rfl | rfl
    · norm_num [PVal.val]
    · norm_num [PVal.val]

/-- C7 (amended): for well-formed transfers, every emitted progress event of
every operation carries a percentage whose numeric value lies in [−1,100];
but the per-chunk events carry that value as a `toFixed(2)` string, not as
a number, so the claimed shape `{message: string, percentage: number}` holds
only for the fixed-phase events. -/
theorem C7_event_values (be : BackupEnv) (re : RestoreEnv) (de : DREnv)
    (hbc : be.chunks.sum ≤ be.fileSize) (hbz : 0 < be.fileSize ∨ be.chunks = [])
    (hrc : re.chunks.sum ≤ re.fileSize) (hrz : 0 < re.fileSize ∨ re.chunks = [])
    (hdc : de.chunks.sum ≤ de.fileSize) (hdz : 0 < de.fileSize ∨ de.chunks = []) :
    (∀ e ∈ (performBackup be).events,
      -1 ≤ e.percentage.val ∧ e.percentage.val ≤ 100) ∧
    (∀ e ∈ (restoreRoute re).events,
      -1 ≤ e.percentage.val ∧ e.percentage.val ≤ 100) ∧
    (∀ e ∈ (drRoute de).events,
      -1 ≤ e.percentage.val ∧ e.percentage.val ≤ 100) :=
  ⟨eventBounds_backup be hbc hbz, eventBounds_restore re hrc hrz,
    eventBounds_dr de hdc hdz⟩

/-- C7 counterexample: the successful 4-byte backup emits a per-chunk
progress event whose `percentage` is a string (the `toFixed(2)` result),
not a number, contradicting the claimed event shape. -/
theorem C7_counterexample :
    ⟨"Uploading...", PVal.str (chunkPerc 90 10 4 2)⟩ ∈ (performBackup benvOK).events ∧
      PVal.isNum (PVal.str (chunkPerc 90 10 4 2)) = false := by
  constructor
  · simp [performBackup, benvOK, emitTo, chunkEvents, cumSums]
  · rfl

theorem C7_witness :
    (∀ e ∈ (performBackup benvOK).events,
      -1 ≤ e.percentage.val ∧ e.percentage.val ≤ 100) ∧
    (∀ e ∈ (restoreRoute renvOK).events,
      -1 ≤ e.percentage.val ∧ e.percentage.val ≤ 100) ∧
    (∀ e ∈ (drRoute denvOK).events,
      -1 ≤ e.percentage.val ∧ e.percentage.val ≤ 100) :=
  C7_event_values benvOK renvOK denvOK (by decide) (Or.inl (by decide))
    (by decide) (Or.inl (by decide)) (by decide) (Or.inl (by decide))

theorem getLast?_cons_append {α : Type} (a : α) (l l2 : List α) (h : l2 ≠ []) :
    (a :: (l ++ l2)).getLast? = l2.getLast? := by
  rw [show a :: (l ++ l2) = (a :: l) ++ l2 by simp,
    List.getLast?_append_of_ne_nil _ h]

/-- C5 (amended): every injected error that the handlers can observe —
external command failures, storage metadata/delete errors, local write and
unlink errors — is caught at the handler boundary: the run fails, the final
progress event (with the observer attached) is the terminal −1, and the
final audit entry is escalated; restore and disaster recovery then surface
a generic 500 operation-failed response.  Two exceptions hold: the manual
backup route ignores `performBackup`'s returned boolean and responds with
the same redirect to `/` as on success, and a remote storage error on the
unlistened download stream of restore or disaster recovery is NOT caught —
it is an uncaught exception that kills the process after the chunk events,
with no −1 event, no response and no escalated entry (last two conjuncts). -/
theorem C5_error_boundary :
    (∀ be : BackupEnv,
      be.dumpErr ≠ none ∨ be.uploadErr ≠ none ∨ be.unlinkErr ≠ none →
      (performBackup { be with socket := true }).success = false ∧
        (backupRoute be).events.getLast? = some ⟨"Backup failed", PVal.num (-1)⟩ ∧
        (∃ m, (backupRoute be).logs.getLast? = some ⟨m, true⟩) ∧
        (backupRoute be).response = Response.redirect "/") ∧
    (∀ re : RestoreEnv,
      re.headErr ≠ none ∨ (re.streamErr = none ∧
        (re.writeErr ≠ none ∨ re.psqlErr ≠ none ∨ re.unlinkErr ≠ none)) →
      (restoreRoute re).response = Response.status 500 "Restore failed" ∧
        (restoreRoute re).events.getLast? = some ⟨"Restore failed", PVal.num (-1)⟩ ∧
        ∃ m, (restoreRoute re).logs.getLast? = some ⟨m, true⟩) ∧
    (∀ de : DREnv,
      de.createdbErr ≠ none ∨ de.headErr ≠ none ∨ (de.streamErr = none ∧
        (de.writeErr ≠ none ∨ de.psqlErr ≠ none ∨ de.unlinkErr ≠ none)) →
      (drRoute de).response = Response.status 500 "Disaster recovery failed" ∧
        (drRoute de).events.getLast? =
          some ⟨"Disaster recovery failed", PVal.num (-1)⟩ ∧
        ∃ m, (drRoute de).logs.getLast? = some ⟨m, true⟩) ∧
    (∀ re : RestoreEnv, re.headErr = none → re.streamErr ≠ none →
      (restoreRoute re).response = Response.crash ∧
        ((restoreRoute re).events.filter Event.isTerminal).length = 0 ∧
        ∀ l ∈ (restoreRoute re).logs, l.notify = false) ∧
    (∀ de : DREnv, de.createdbErr = none → de.headErr = none →
      de.streamErr ≠ none →
      (drRoute de).response = Response.crash ∧
        ((drRoute de).events.filter Event.isTerminal).length = 0 ∧
        ∀ l ∈ (drRoute de).logs, l.notify = false) := by
  refine ⟨?_, ?_, ?_, crash_no_terminal_restore, crash_no_terminal_dr⟩
  · intro be hfail
    obtain ⟨d, s, de, dp, S, cs, ue, ule⟩ := be
    dsimp only at hfail
    rcases de with _ | e
    · rcases ue with _ | e
      · rcases ule with _ | e
        · simp at hfail
        · refine ⟨rfl, ?_, ⟨"Backup failed: " ++ e, ?_⟩, rfl⟩ <;>
            simp [backupRoute, performBackup, emitTo, getLast?_cons_append]
      · refine ⟨rfl, ?_, ⟨"Backup failed: " ++ e, ?_⟩, rfl⟩ <;>
          simp [backupRoute, performBackup, emitTo, getLast?_cons_append]
    · refine ⟨rfl, ?_, ⟨"Backup failed: " ++ e, ?_⟩, rfl⟩ <;>
        simp [backupRoute, performBackup, emitTo, getLast?_cons_append]
  · intro re hfail
    obtain ⟨fn, he, S, cs, st, wr, pe, ule⟩ := re
    dsimp only at hfail
    rcases he with _ | e
    · rcases hfail with h | ⟨hst, hfail⟩
      · simp at h
      · subst hst
        rcases wr with _ | e
        · rcases pe with _ | e
          · rcases ule with _ | e
            · simp at hfail
            · refine ⟨rfl, ?_, ⟨"Restore failed: " ++ e, ?_⟩⟩ <;>
                simp [restoreRoute, getLast?_cons_append]
          · refine ⟨rfl, ?_, ⟨"Restore failed: " ++ e, ?_⟩⟩ <;>
              simp [restoreRoute, getLast?_cons_append]
        · refine ⟨rfl, ?_, ⟨"Restore failed: " ++ e, ?_⟩⟩ <;>
            simp [restoreRoute, getLast?_cons_append]
    · refine ⟨rfl, ?_, ⟨"Restore failed: " ++ e, ?_⟩⟩ <;>
        simp [restoreRoute, getLast?_cons_append]
  · intro de hfail
    obtain ⟨fn, now, ce, he, S, cs, st, wr, pe, ule⟩ := de
    dsimp only at hfail
    rcases ce with _ | e
    · rcases he with _ | e
      · rcases hfail with h | h | ⟨hst, hfail⟩
        · simp at h
        · simp at h
        · subst hst
          rcases wr with _ | e
          · rcases pe with _ | e
            · rcases ule with _ | e
              · simp at hfail
              · refine ⟨rfl, ?_, ⟨"Disaster recovery failed: " ++ e, ?_⟩⟩ <;>
                  simp [drRoute, getLast?_cons_append]
            · refine ⟨rfl, ?_, ⟨"Disaster recovery failed: " ++ e, ?_⟩⟩ <;>
                simp [drRoute, getLast?_cons_append]
          · refine ⟨rfl, ?_, ⟨"Disaster recovery failed: " ++ e, ?_⟩⟩ <;>
              simp [drRoute, getLast?_cons_append]
      · refine ⟨rfl, ?_, ⟨"Disaster recovery failed: " ++ e, ?_⟩⟩ <;>
          simp [drRoute, getLast?_cons_append]
    · refine ⟨rfl, ?_, ⟨"Disaster recovery failed: " ++ e, ?_⟩⟩ <;>
        simp [drRoute, getLast?_cons_append]

/-- C5 counterexample: a manual backup whose upload fails still answers the
HTTP caller with the success-path redirect to `/`, not an operation-failed
response. -/
theorem C5_counterexample :
    (performBackup benvUploadFail).success = false ∧
      (backupRoute benvUploadFail).response = Response.redirect "/" ∧
      (backupRoute benvUploadFail).response = (backupRoute benvOK).response := by
  refine ⟨rfl, rfl, rfl⟩

theorem C5_witness :
    ((performBackup { benvUploadFail with socket := true }).success = false ∧
      (backupRoute benvUploadFail).events.getLast? =
        some ⟨"Backup failed", PVal.num (-1)⟩ ∧
      (∃ m, (backupRoute benvUploadFail).logs.getLast? = some ⟨m, true⟩) ∧
      (backupRoute benvUploadFail).response = Response.redirect "/") ∧
    ((restoreRoute renvHeadFail).response = Response.status 500 "Restore failed" ∧
      (restoreRoute renvHeadFail).events.getLast? =
        some ⟨"Restore failed", PVal.num (-1)⟩ ∧
      ∃ m, (restoreRoute renvHeadFail).logs.getLast? = some ⟨m, true⟩) ∧
    ((drRoute denvPsqlFail).response = Response.status 500 "Disaster recovery failed" ∧
      (drRoute denvPsqlFail).events.getLast? =
        some ⟨"Disaster recovery failed", PVal.num (-1)⟩ ∧
      ∃ m, (drRoute denvPsqlFail).logs.getLast? = some ⟨m, true⟩) ∧
    ((restoreRoute renvStreamFail).response = Response.crash ∧
      ((restoreRoute renvStreamFail).events.filter Event.isTerminal).length = 0 ∧
      ∀ l ∈ (restoreRoute renvStreamFail).logs, l.notify = false) ∧
    ((drRoute denvStreamFail).response = Response.crash ∧
      ((drRoute denvStreamFail).events.filter Event.isTerminal).length = 0 ∧
      ∀ l ∈ (drRoute denvStreamFail).logs, l.notify = false) :=
  ⟨C5_error_boundary.1 benvUploadFail (Or.inr (Or.inl (by simp [benvUploadFail]))),
    C5_error_boundary.2.1 renvHeadFail (Or.inl (by simp [renvHeadFail])),
    C5_error_boundary.2.2.1 denvPsqlFail
      (Or.inr (Or.inr ⟨rfl, Or.inr (Or.inl (by simp [denvPsqlFail]))⟩)),
    C5_error_boundary.2.2.2.1 renvStreamFail rfl (by simp [renvStreamFail]),
    C5_error_boundary.2.2.2.2 denvStreamFail rfl rfl (by simp [denvStreamFail])⟩

/-- C6 (confirmed): successful restore, delete and disaster-recovery runs
each write an escalated audit entry (`log(..., true)`), while a fully
successful backup run writes only non-escalated entries; a failed backup
run writes an escalated entry. -/
theorem C6_escalation_policy :
    (∀ re : RestoreEnv, re.headErr = none → re.streamErr = none →
      re.writeErr = none → re.psqlErr = none →
      ⟨"Database restored successfully from: " ++ re.filename, true⟩ ∈
        (restoreRoute re).logs) ∧
    (∀ dl : DeleteEnv, dl.deleteErr = none →
      ⟨"Backup deleted successfully: " ++ dl.filename, true⟩ ∈
        (deleteRoute dl).logs) ∧
    (∀ de : DREnv, de.createdbErr = none → de.headErr = none →
      de.streamErr = none → de.writeErr = none → de.psqlErr = none →
      ⟨"Temporary database restored: " ++ ("recovery_" ++ toString de.nowMs), true⟩ ∈
        (drRoute de).logs) ∧
    (∀ be : BackupEnv, be.dumpErr = none → be.uploadErr = none →
      be.unlinkErr = none →
      (performBackup be).success = true ∧
        ∀ l ∈ (performBackup be).logs, l.notify = false) ∧
    (∀ be : BackupEnv,
      be.dumpErr ≠ none ∨ be.uploadErr ≠ none ∨ be.unlinkErr ≠ none →
      (performBackup be).success = false ∧
        ∃ l ∈ (performBackup be).logs, l.notify = true) := by
  refine ⟨?_, ?_, ?_, ?_, ?_⟩
  · intro re h1 h2 h3 h4
    obtain ⟨fn, he, S, cs, st, wr, pe, ule⟩ := re
    dsimp only at h1 h2 h3 h4 ⊢
    subst h1 h2 h3 h4
    rcases ule with _ | e <;> simp [restoreRoute]
  · intro dl h1
    obtain ⟨fn, de⟩ := dl
    dsimp only at h1 ⊢
    subst h1
    simp [deleteRoute]
  · intro de h1 h2 h3 h4 h5
    obtain ⟨fn, now, ce, he, S, cs, st, wr, pe, ule⟩ := de
    dsimp only at h1 h2 h3 h4 h5 ⊢
    subst h1 h2 h3 h4 h5
    rcases ule with _ | e <;> simp [drRoute]
  · intro be h1 h2 h3
    obtain ⟨d, s, de, dp, S, cs, ue, ule⟩ := be
    dsimp only at h1 h2 h3 ⊢
    subst h1 h2 h3
    refine ⟨rfl, ?_⟩
    intro l hl
    simp [performBackup] at hl
    rcases hl with rfl | rfl | rfl | rfl <;> rfl
  · intro be hfail
    obtain ⟨d, s, de, dp, S, cs, ue, ule⟩ := be
    dsimp only at hfail
    rcases de with _ | e
    · rcases ue with _ | e
      · rcases ule with _ | e
        · simp at hfail
        · exact ⟨rfl, ⟨"Backup failed: " ++ e, true⟩, by simp [performBackup], rfl⟩
      · exact ⟨rfl, ⟨"Backup failed: " ++ e, true⟩, by simp [performBackup], rfl⟩
    · exact ⟨rfl, ⟨"Backup failed: " ++ e, true⟩, by simp [performBackup], rfl⟩

theorem C6_witness :
    (⟨"Database restored successfully from: " ++ renvOK.filename, true⟩ ∈
      (restoreRoute renvOK).logs) ∧
    (⟨"Backup deleted successfully: " ++ delenvOK.filename, true⟩ ∈
      (deleteRoute delenvOK).logs) ∧
    (⟨"Temporary database restored: " ++ ("recovery_" ++ toString denvOK.nowMs), true⟩ ∈
      (drRoute denvOK).logs) ∧
    ((performBackup benvOK).success = true ∧
      ∀ l ∈ (performBackup benvOK).logs, l.notify = false) ∧
    ((performBackup benvDumpFail).success = false ∧
      ∃ l ∈ (performBackup benvDumpFail).logs, l.notify = true) :=
  ⟨C6_escalation_policy.1 renvOK rfl rfl rfl rfl,
    C6_escalation_policy.2.1 delenvOK rfl,
    C6_escalation_policy.2.2.1 denvOK rfl rfl rfl rfl rfl,
    C6_escalation_policy.2.2.2.1 benvOK rfl rfl rfl,
    C6_escalation_policy.2.2.2.2 benvDumpFail (Or.inl (by simp [benvDumpFail]))⟩

/-- C8 (confirmed): the dashboard's log view is the most recent 50 non-empty
entries of the appended log file, most-recent-first; with at most 50
non-empty entries it is exactly all of them reversed. -/
theorem C8_dashboard_logs (lines : List String) :
    dashboardLogs lines =
      ((lines.filter fun s => s ≠ "").drop
        ((lines.filter fun s => s ≠ "").length - 50)).reverse ∧
    ((lines.filter fun s => s ≠ "").length ≤ 50 →
      dashboardLogs lines = (lines.filter fun s => s ≠ "").reverse) := by
  constructor
  · rw [dashboardLogs]
    have h := @List.reverse_take String (lines.filter fun s => s ≠ "").reverse 50
    simp only [List.reverse_reverse, List.length_reverse] at h
    calc ((lines.filter fun s => s ≠ "").reverse).take 50
        = ((((lines.filter fun s => s ≠ "").reverse).take 50).reverse).reverse := by
          rw [List.reverse_reverse]
      _ = ((lines.filter fun s => s ≠ "").drop
            ((lines.filter fun s => s ≠ "").length - 50)).reverse := by rw [h]
  · intro hlen
    rw [dashboardLogs]
    exact List.take_of_length_le (by simpa using hlen)

theorem C8_witness :
    dashboardLogs logsSample =
      ((logsSample.filter fun s => s ≠ "").drop
        ((logsSample.filter fun s => s ≠ "").length - 50)).reverse ∧
    ((logsSample.filter fun s => s ≠ "").length ≤ 50 →
      dashboardLogs logsSample = (logsSample.filter fun s => s ≠ "").reverse) :=
  C8_dashboard_logs logsSample

/-- C9 (confirmed): with a schedule configuration present a recurring
trigger is registered, and each scheduled run invokes the backup with no
observer: it emits no progress events at all, completes and returns `true`
when no step fails (escalating nothing), writes audit entries in every
case, and escalates exactly when some step fails. -/
theorem C9_scheduled_backup (schedule : String) (be : BackupEnv) :
    autoBackupRegistered (some schedule) = true ∧
    autoBackupRegistered none = false ∧
    (scheduledBackup be).events = [] ∧
    (scheduledBackup be).logs ≠ [] ∧
    ((be.dumpErr = none ∧ be.uploadErr = none ∧ be.unlinkErr = none) →
      (scheduledBackup be).success = true ∧
        ∀ l ∈ (scheduledBackup be).logs, l.notify = false) ∧
    ((be.dumpErr ≠ none ∨ be.uploadErr ≠ none ∨ be.unlinkErr ≠ none) →
      (scheduledBackup be).success = false ∧
        ∃ l ∈ (scheduledBackup be).logs, l.notify = true) := by
  obtain ⟨d, s, de, dp, S, cs, ue, ule⟩ := be
  refine ⟨rfl, rfl, ?_, ?_, ?_, ?_⟩
  · rcases de with _ | e <;> rcases ue with _ | e2 <;> rcases ule with _ | e3 <;>
      simp [scheduledBackup, performBackup, emitTo, chunkEvents]
  · rcases de with _ | e <;> rcases ue with _ | e2 <;> rcases ule with _ | e3 <;>
      simp [scheduledBackup, performBackup]
  · intro h
    obtain ⟨h1, h2, h3⟩ := h
    dsimp only at h1 h2 h3
    subst h1 h2 h3
    refine ⟨rfl, ?_⟩
    intro l hl
    simp [scheduledBackup, performBackup] at hl
    rcases hl with rfl | rfl | rfl | rfl | rfl | rfl <;> rfl
  · intro hfail
    dsimp only at hfail
    rcases de with _ | e
    · rcases ue with _ | e
      · rcases ule with _ | e
        · simp at hfail
        · exact ⟨rfl, ⟨"Backup failed: " ++ e, true⟩,
            by simp [scheduledBackup, performBackup], rfl⟩
      · exact ⟨rfl, ⟨"Backup failed: " ++ e, true⟩,
          by simp [scheduledBackup, performBackup], rfl⟩
    · exact ⟨rfl, ⟨"Backup failed: " ++ e, true⟩,
        by simp [scheduledBackup, performBackup], rfl⟩

theorem C9_witness :
    autoBackupRegistered (some "0 2 * * *") = true ∧
    autoBackupRegistered none = false ∧
    (scheduledBackup benvOK).events = [] ∧
    (scheduledBackup benvOK).logs ≠ [] ∧
    ((benvOK.dumpErr = none ∧ benvOK.uploadErr = none ∧ benvOK.unlinkErr = none) →
      (scheduledBackup benvOK).success = true ∧
        ∀ l ∈ (scheduledBackup benvOK).logs, l.notify = false) ∧
    ((benvOK.dumpErr ≠ none ∨ benvOK.uploadErr ≠ none ∨ benvOK.unlinkErr ≠ none) →
      (scheduledBackup benvOK).success = false ∧
        ∃ l ∈ (scheduledBackup benvOK).logs, l.notify = true) :=
  C9_scheduled_backup "0 2 * * *" benvOK
